import Mathlib

/-!
Verification of the s390 ECC dispatch engine (src/s390_ecc.c).

The development shallowly embeds the C source: byte buffers are `List Nat`
(each element a byte value), machine integers are `Nat`/`Int`, hardware
instructions and the coprocessor transport are oracles passed in as explicit
parameters, and each C function becomes a Lean function over those.
Definitions are translated from the source file; the curve registry and the
CCA structure layouts live in a header that is not part of the sources, so
those are modelled from the specification and marked as such.
-/

namespace S390Ecc

/-! ## Error codes (errno values used by the source) -/

def EIO : Nat := 5
def ENOMEM : Nat := 12
def EACCES : Nat := 13
def EFAULT : Nat := 14
def ENODEV : Nat := 19
def EINVAL : Nat := 22

/-! ## Curve identifiers (OpenSSL NIDs) -/

def NID_X9_62_prime256v1 : Nat := 415
def NID_secp384r1 : Nat := 715
def NID_secp521r1 : Nat := 716
def NID_X25519 : Nat := 1034
def NID_X448 : Nat := 1035
def NID_ED25519 : Nat := 1087
def NID_ED448 : Nat := 1088

/-- Modelled from the spec: the Curve Registry's `privlen_from_nid` lives in
the header s390_ecc.h which is not under src/.  Per the spec (sections 2 and
4.1/4.2) the registry maps a curve identifier to the private-scalar byte
length: 32/48/66 for P-256/P-384/P-521, 32 for the Curve25519 family and
56/57 for X448/Ed448.  Unlisted curves yield 0 (no registry entry). -/
def privlen_from_nid (nid : Nat) : Nat :=
  if nid = NID_X9_62_prime256v1 then 32
  else if nid = NID_secp384r1 then 48
  else if nid = NID_secp521r1 then 66
  else if nid = NID_X25519 then 32
  else if nid = NID_ED25519 then 32
  else if nid = NID_X448 then 56
  else if nid = NID_ED448 then 57
  else 0

/-- Modelled from the spec: `curve_type_from_nid` lives in the missing header.
Per the spec the registry supplies a coprocessor curve-type code for the
curves the coprocessor protocol can encode (the NIST prime curves, code 0);
for every other curve there is no entry, reported as a negative value. -/
def curve_type_from_nid (nid : Nat) : Int :=
  if nid = NID_X9_62_prime256v1 then 0
  else if nid = NID_secp384r1 then 0
  else if nid = NID_secp521r1 then 0
  else -1

/-- Modelled from the spec: the sentinel adapter handle meaning "driver not
loaded" (declared in the API header, not under src/). -/
def DRIVER_NOT_LOADED : Int := -1

/-- Modelled from the spec: the coprocessor reason code distinguishing
"signature invalid" from all other failures (declared in the missing
header). Only its distinctness from 0 matters to the claims. -/
def RS_SIGNATURE_INVALID : Nat := 8

/-! ## EC key data model -/

/-- An `ICA_EC_KEY`: curve identifier, private scalar D, and optional public
coordinates X, Y (NULL pointers in C become `none`). -/
structure ICA_EC_KEY where
  nid : Nat
  D : List Nat
  X : Option (List Nat)
  Y : Option (List Nat)

/-! ## Byte-buffer helpers

The CPACF parameter blocks are zero-initialised fixed-size buffers into which
the source `memcpy`s operands.  `memcpy_into dst src n` copies the first `n`
bytes of `src` over the start of `dst`. -/

def memcpy_into (dst src : List Nat) (n : Nat) : List Nat :=
  src.take n ++ dst.drop n

/-! ## scalar_mulx_cpacf (X25519 / X448 Montgomery ladder)

The parameter block holds `res_u`, `u`, `scalar` fields of 32 (X25519) resp.
64 (X448) bytes.  The source copies the caller's little-endian values in,
clamps, flips each field to big-endian with s390_flip_endian_32/64 (a full
byte reversal of the field), invokes the PCC instruction, flips the result
field back and copies `len` bytes out. -/

/-- Outcome of the PCC scalar-multiply-x hardware instruction, as an oracle:
`fault` is whether s390_pcc returned nonzero; `res_u` gives the contents of
the result field as a function of the (big-endian) `u` and `scalar` fields
the instruction received. -/
structure PccMulxEnv where
  fault : Bool
  res_u : List Nat → List Nat → List Nat

/-- Clamping of the X25519 scalar exactly as in the source:
scalar[0] &= 248; scalar[31] &= 127; scalar[31] |= 64. -/
def clamp_x25519_scalar (s : List Nat) : List Nat :=
  let s0 := s.set 0 (Nat.land (s.getD 0 0) 248)
  let s1 := s0.set 31 (Nat.land (s0.getD 31 0) 127)
  s1.set 31 (Nat.lor (s1.getD 31 0) 64)

/-- Clamping of the X25519 u-coordinate: u[31] &= 0x7f. -/
def clamp_x25519_u (u : List Nat) : List Nat :=
  u.set 31 (Nat.land (u.getD 31 0) 0x7f)

/-- Clamping of the X448 scalar: scalar[0] &= 252; scalar[55] |= 128. -/
def clamp_x448_scalar (s : List Nat) : List Nat :=
  let s0 := s.set 0 (Nat.land (s.getD 0 0) 252)
  s0.set 55 (Nat.lor (s0.getD 55 0) 128)

/-- Trace of one scalar_mulx_cpacf call: the return code, the big-endian
`u` and `scalar` fields handed to the PCC instruction (`none` when the
instruction is never invoked), and the bytes copied to the caller's result
buffer (`none` when it is left untouched). -/
structure MulxOut where
  rc : Nat
  pcc_in : Option (List Nat × List Nat)
  res : Option (List Nat)

/-- Model of `scalar_mulx_cpacf`.  Faithful to the source: the 32- resp.
64-byte fields start zeroed, `len = privlen_from_nid nid` bytes of `u` and
`scalar` are copied in, the clamping is applied in place, both fields are
byte-reversed to big-endian, the instruction runs, the result field is
byte-reversed back and `len` bytes of it are copied out (also when the
instruction faulted, as in the source). -/
def scalar_mulx_cpacf (env : PccMulxEnv) (scalar u : List Nat) (nid : Nat) :
    MulxOut :=
  let len := privlen_from_nid nid
  if nid = NID_X25519 then
    let ubuf := clamp_x25519_u (memcpy_into (List.replicate 32 0) u len)
    let sbuf := clamp_x25519_scalar (memcpy_into (List.replicate 32 0) scalar len)
    let ube := ubuf.reverse
    let sbe := sbuf.reverse
    { rc := if env.fault then EIO else 0
      pcc_in := some (ube, sbe)
      res := some (((env.res_u ube sbe).reverse).take len) }
  else if nid = NID_X448 then
    let ubuf := memcpy_into (List.replicate 64 0) u len
    let sbuf := clamp_x448_scalar (memcpy_into (List.replicate 64 0) scalar len)
    let ube := ubuf.reverse
    let sbe := sbuf.reverse
    { rc := if env.fault then EIO else 0
      pcc_in := some (ube, sbe)
      res := some (((env.res_u ube sbe).reverse).take len) }
  else
    { rc := EINVAL, pcc_in := none, res := none }

/-! ## List helper lemmas -/

theorem getD_set_self (l : List Nat) (i a : Nat) (h : i < l.length) :
    (l.set i a).getD i 0 = a := by
  rw [List.getD, List.get?_eq_getElem?, List.getElem?_set_eq_of_lt a h]
  rfl

theorem getD_set_ne (l : List Nat) (i j a : Nat) (h : i ≠ j) :
    (l.set i a).getD j 0 = l.getD j 0 := by
  rw [List.getD, List.get?_eq_getElem?, List.getElem?_set_ne h]
  rw [List.getD, List.get?_eq_getElem?]

theorem getD_append_left (l l' : List Nat) (i : Nat) (h : i < l.length) :
    (l ++ l').getD i 0 = l.getD i 0 := by
  rw [List.getD, List.get?_eq_getElem?, List.getElem?_append_left h]
  rw [List.getD, List.get?_eq_getElem?]

theorem getD_append_replicate_right (l : List Nat) (n i : Nat) (h : l.length ≤ i) :
    (l ++ List.replicate n 0).getD i 0 = 0 := by
  rw [List.getD, List.get?_eq_getElem?, List.getElem?_append_right h,
    List.getElem?_replicate]
  split
  · rfl
  · rfl

theorem memcpy_into_full (u : List Nat) (w : Nat) (h : u.length = w) :
    memcpy_into (List.replicate w 0) u w = u := by
  simp [memcpy_into, List.take_of_length_le, h]

theorem memcpy_into_pad (u : List Nat) (n w : Nat) (h : u.length = n) (_hw : n ≤ w) :
    memcpy_into (List.replicate w 0) u n = u ++ List.replicate (w - n) 0 := by
  simp [memcpy_into, List.take_of_length_le, h, List.drop_replicate]

/-! ## ecdsa_sign_cpacf / ecdsa_verify_cpacf (KDSA instruction)

Both functions support the curves P-256/P-384/P-521 with parameter-block
field widths 32/48/80 bytes (the sizes of the union members in the source)
and return EINVAL for every other curve.  Operands are marshalled into
zeroed fields: the hash is fitted asymmetrically (right-aligned zero-padded
when short, left-truncated... precisely: only its leftmost `width` bytes
used when long), scalars/coordinates/signature halves are right-aligned at
offset `width - privlen`. -/

/-- Curves supported by the KDSA sign/verify instruction paths. -/
def cpacf_sign_nids : List Nat :=
  [NID_X9_62_prime256v1, NID_secp384r1, NID_secp521r1]

/-- Parameter-block field width per curve: the sizes of the P256/P384/P521
union members in the source (32/48/80 bytes). -/
def hashWidth (nid : Nat) : Nat :=
  if nid = NID_X9_62_prime256v1 then 32
  else if nid = NID_secp384r1 then 48
  else 80

/-- The hash-fitting computation of the source: off = width - min(hashlen,
width); memcpy(field + off, hash, width - off) into a zeroed field. -/
def fit_hash (w : Nat) (h : List Nat) : List Nat :=
  let off := w - min h.length w
  List.replicate off 0 ++ h.take (w - off)

/-- The hash field of the KDSA parameter block for the given curve, as built
identically by ecdsa_sign_cpacf and ecdsa_verify_cpacf. -/
def ecdsa_param_hash (nid : Nat) (hash : List Nat) : List Nat :=
  fit_hash (hashWidth nid) hash

/-- A value of `privlen` bytes right-aligned in a zeroed field of
`hashWidth` bytes (the marshalling used for D, X, Y and signature halves). -/
def ecdsa_param_fix (nid : Nat) (v : List Nat) : List Nat :=
  List.replicate (hashWidth nid - privlen_from_nid nid) 0
    ++ v.take (privlen_from_nid nid)

/-- The KDSA sign parameter block (hash, private scalar, random value). -/
structure KdsaSignParam where
  hash : List Nat
  priv : List Nat
  rand : List Nat
  deriving DecidableEq

/-- Oracle for the KDSA signing instruction: `sign` is the hardware-internal
randomness function code, `signDet` the deterministic variant (fc | 0x80);
each maps the parameter block to the return code and the sig_r/sig_s fields
it leaves in the block. -/
structure KdsaSignEnv where
  sign : KdsaSignParam → Nat × List Nat × List Nat
  signDet : KdsaSignParam → Nat × List Nat × List Nat

/-- Extraction of the signature from the sig_r/sig_s fields: privlen bytes
from offset width - privlen of each, concatenated. -/
def sig_from_fields (nid : Nat) (p : List Nat × List Nat) : List Nat :=
  let w := hashWidth nid
  let l := privlen_from_nid nid
  ((p.1).drop (w - l)).take l ++ ((p.2).drop (w - l)).take l

/-- Result of an ecdsa_sign_cpacf call: return code, the bytes copied to the
caller's signature buffer (`none` when untouched, i.e. unsupported curve),
the hash field of the parameter block handed to the instruction, and how
many times the instruction was invoked. -/
structure CpacfSignOut where
  rc : Nat
  sig : Option (List Nat)
  param_hash : Option (List Nat)
  invocations : Nat

/-- Model of `ecdsa_sign_cpacf` with `rng_cb == NULL` (hardware-internal
randomness): a single KDSA invocation, signature copied out of the
parameter block unconditionally afterwards. -/
def ecdsa_sign_cpacf_hwrand (env : KdsaSignEnv) (priv : ICA_EC_KEY)
    (hash : List Nat) : CpacfSignOut :=
  if priv.nid ∈ cpacf_sign_nids then
    let w := hashWidth priv.nid
    let p : KdsaSignParam :=
      { hash := ecdsa_param_hash priv.nid hash
        priv := ecdsa_param_fix priv.nid priv.D
        rand := List.replicate w 0 }
    let r := env.sign p
    { rc := r.1, sig := some (sig_from_fields priv.nid r.2)
      param_hash := some p.hash, invocations := 1 }
  else { rc := EINVAL, sig := none, param_hash := none, invocations := 0 }

/-- One attempt of the deterministic-signing retry loop: the i-th random
value from the caller's RNG stream is written right-aligned into the rand
field and the deterministic KDSA instruction is invoked. -/
def sign_det_step (env : KdsaSignEnv) (nid : Nat) (hash D : List Nat)
    (rng : Nat → List Nat) (i : Nat) : Nat × List Nat × List Nat :=
  env.signDet
    { hash := ecdsa_param_hash nid hash
      priv := ecdsa_param_fix nid D
      rand := ecdsa_param_fix nid (rng i) }

/-- The do/while retry loop of deterministic signing, with explicit fuel
standing in for unboundedness: attempt `i`; stop on return code 0, else
retry with the next random value while fuel remains.  Returns the index of
the last attempt together with its result. -/
def ecdsa_sign_retry (step : Nat → Nat × List Nat × List Nat) :
    Nat → Nat → Nat × (Nat × List Nat × List Nat)
  | i, 0 => (i, step i)
  | i, fuel + 1 =>
    if (step i).1 = 0 then (i, step i) else ecdsa_sign_retry step (i + 1) fuel

/-- Model of `ecdsa_sign_cpacf` with an RNG callback (deterministic
signing). -/
def ecdsa_sign_cpacf_det (env : KdsaSignEnv) (priv : ICA_EC_KEY)
    (hash : List Nat) (rng : Nat → List Nat) (fuel : Nat) : CpacfSignOut :=
  if priv.nid ∈ cpacf_sign_nids then
    let r := ecdsa_sign_retry (sign_det_step env priv.nid hash priv.D rng) 0 fuel
    { rc := r.2.1, sig := some (sig_from_fields priv.nid r.2.2)
      param_hash := some (ecdsa_param_hash priv.nid hash)
      invocations := r.1 + 1 }
  else { rc := EINVAL, sig := none, param_hash := none, invocations := 0 }

/-- Oracle outcome of the KDSA verify instruction (nonzero = fault or
signature mismatch). -/
structure KdsaVerifyEnv where
  fault : Bool

/-- The KDSA verify parameter block as marshalled by ecdsa_verify_cpacf. -/
structure KdsaVerifyParam where
  sig_r : List Nat
  sig_s : List Nat
  hash : List Nat
  pub_x : List Nat
  pub_y : List Nat

/-- Marshalling of the verify parameter block from the caller's operands. -/
def ecdsa_verify_param (nid : Nat) (hash sig x y : List Nat) : KdsaVerifyParam :=
  let l := privlen_from_nid nid
  { sig_r := ecdsa_param_fix nid (sig.take l)
    sig_s := ecdsa_param_fix nid ((sig.drop l).take l)
    hash := ecdsa_param_hash nid hash
    pub_x := ecdsa_param_fix nid x
    pub_y := ecdsa_param_fix nid y }

/-- Result of an ecdsa_verify_cpacf call. -/
structure CpacfVerifyOut where
  rc : Nat
  param : Option KdsaVerifyParam

/-- Model of `ecdsa_verify_cpacf`: EINVAL on curves outside the KDSA set,
otherwise EFAULT when the instruction reports nonzero, 0 on success. -/
def ecdsa_verify_cpacf (env : KdsaVerifyEnv) (pub : ICA_EC_KEY)
    (hash sig : List Nat) : CpacfVerifyOut :=
  if pub.nid ∈ cpacf_sign_nids then
    { rc := if env.fault then EFAULT else 0
      param := some (ecdsa_verify_param pub.nid hash sig
        (pub.X.getD []) (pub.Y.getD [])) }
  else { rc := EINVAL, param := none }

/-! ## Claim C5 -/

/-- C5: every X25519/X448 ladder multiplication via scalar_mulx_cpacf first
clamps the scalar per the curve's rule (X25519: byte 0 AND 248, byte 31
AND 127 then OR 64, and u byte 31 AND 0x7f; X448: byte 0 AND 252, byte 55
OR 128), then hands the byte-reversed (big-endian) scalar and u fields to
the instruction, reverses the result back to little-endian before copying
it to the caller, and yields EINVAL on any other curve identifier. -/
theorem scalar_mulx_cpacf_clamps_and_flips (env : PccMulxEnv) (s u : List Nat)
    (nid : Nat) :
    (s.length = 32 → u.length = 32 →
      (let o := scalar_mulx_cpacf env s u NID_X25519
       let sc := clamp_x25519_scalar s
       let uc := clamp_x25519_u u
       o.rc = (if env.fault then EIO else 0) ∧
       o.pcc_in = some (uc.reverse, sc.reverse) ∧
       sc.getD 0 0 = Nat.land (s.getD 0 0) 248 ∧
       sc.getD 31 0 = Nat.lor (Nat.land (s.getD 31 0) 127) 64 ∧
       (∀ i, i ≠ 0 → i ≠ 31 → sc.getD i 0 = s.getD i 0) ∧
       uc.getD 31 0 = Nat.land (u.getD 31 0) 127 ∧
       (∀ i, i ≠ 31 → uc.getD i 0 = u.getD i 0) ∧
       o.res = some (((env.res_u uc.reverse sc.reverse).reverse).take 32))) ∧
    (s.length = 56 → u.length = 56 →
      (let o := scalar_mulx_cpacf env s u NID_X448
       let sc := clamp_x448_scalar (s ++ List.replicate 8 0)
       o.rc = (if env.fault then EIO else 0) ∧
       o.pcc_in = some ((u ++ List.replicate 8 0).reverse, sc.reverse) ∧
       sc.getD 0 0 = Nat.land (s.getD 0 0) 252 ∧
       sc.getD 55 0 = Nat.lor (s.getD 55 0) 128 ∧
       (∀ i, i < 56 → i ≠ 0 → i ≠ 55 → sc.getD i 0 = s.getD i 0) ∧
       (∀ i, 56 ≤ i → sc.getD i 0 = 0) ∧
       o.res = some (((env.res_u (u ++ List.replicate 8 0).reverse
         sc.reverse).reverse).take 56))) ∧
    (nid ≠ NID_X25519 → nid ≠ NID_X448 →
      scalar_mulx_cpacf env s u nid = ⟨EINVAL, none, none⟩) := by
  refine ⟨?_, ?_, ?_⟩
  · intro hs hu
    have hmu : memcpy_into (List.replicate 32 0) u 32 = u := memcpy_into_full u 32 hu
    have hms : memcpy_into (List.replicate 32 0) s 32 = s := memcpy_into_full s 32 hs
    refine ⟨rfl, ?_, ?_, ?_, ?_, ?_, ?_, ?_⟩
    · rw [show (scalar_mulx_cpacf env s u NID_X25519).pcc_in =
        some ((clamp_x25519_u (memcpy_into (List.replicate 32 0) u 32)).reverse,
          (clamp_x25519_scalar (memcpy_into (List.replicate 32 0) s 32)).reverse)
        from rfl, hmu, hms]
    · unfold clamp_x25519_scalar
      rw [getD_set_ne _ 31 0 _ (by omega), getD_set_ne _ 31 0 _ (by omega),
        getD_set_self _ 0 _ (by simp [hs])]
    · unfold clamp_x25519_scalar
      rw [getD_set_self _ 31 _ (by simp [hs]),
        getD_set_self _ 31 _ (by simp [hs]),
        getD_set_ne _ 0 31 _ (by omega)]
    · intro i h0 h31
      unfold clamp_x25519_scalar
      rw [getD_set_ne _ 31 i _ (Ne.symm h31), getD_set_ne _ 31 i _ (Ne.symm h31),
        getD_set_ne _ 0 i _ (Ne.symm h0)]
    · unfold clamp_x25519_u
      rw [getD_set_self _ 31 _ (by simp [hu])]
    · intro i h31
      unfold clamp_x25519_u
      rw [getD_set_ne _ 31 i _ (Ne.symm h31)]
    · rw [show (scalar_mulx_cpacf env s u NID_X25519).res =
        some (((env.res_u
          (clamp_x25519_u (memcpy_into (List.replicate 32 0) u 32)).reverse
          (clamp_x25519_scalar (memcpy_into (List.replicate 32 0) s 32)).reverse).reverse).take 32)
        from rfl, hmu, hms]
  · intro hs hu
    have hmu : memcpy_into (List.replicate 64 0) u 56 = u ++ List.replicate 8 0 :=
      memcpy_into_pad u 56 64 hu (by omega)
    have hms : memcpy_into (List.replicate 64 0) s 56 = s ++ List.replicate 8 0 :=
      memcpy_into_pad s 56 64 hs (by omega)
    refine ⟨rfl, ?_, ?_, ?_, ?_, ?_, ?_⟩
    · rw [show (scalar_mulx_cpacf env s u NID_X448).pcc_in =
        some ((memcpy_into (List.replicate 64 0) u 56).reverse,
          (clamp_x448_scalar (memcpy_into (List.replicate 64 0) s 56)).reverse)
        from rfl, hmu, hms]
    · unfold clamp_x448_scalar
      rw [getD_set_ne _ 55 0 _ (by omega),
        getD_set_self _ 0 _ (by simp [hs]),
        getD_append_left _ _ 0 (by omega)]
    · unfold clamp_x448_scalar
      rw [getD_set_self _ 55 _ (by simp [hs]),
        getD_set_ne _ 0 55 _ (by omega),
        getD_append_left _ _ 55 (by omega)]
    · intro i hilt h0 h55
      unfold clamp_x448_scalar
      rw [getD_set_ne _ 55 i _ (Ne.symm h55), getD_set_ne _ 0 i _ (Ne.symm h0),
        getD_append_left _ _ i (by omega)]
    · intro i hige
      unfold clamp_x448_scalar
      rw [getD_set_ne _ 55 i _ (by omega), getD_set_ne _ 0 i _ (by omega),
        getD_append_replicate_right _ _ _ (by omega)]
    · rw [show (scalar_mulx_cpacf env s u NID_X448).res =
        some (((env.res_u
          (memcpy_into (List.replicate 64 0) u 56).reverse
          (clamp_x448_scalar (memcpy_into (List.replicate 64 0) s 56)).reverse).reverse).take 56)
        from rfl, hmu, hms]
  · intro h1 h2
    simp only [scalar_mulx_cpacf, if_neg h1, if_neg h2]

/-- Witness for C5 at concrete 32- and 56-byte inputs. -/
theorem scalar_mulx_cpacf_clamps_and_flips_witness :
    (scalar_mulx_cpacf ⟨false, fun _ _ => List.replicate 32 7⟩
        (List.replicate 32 3) (List.replicate 32 9) NID_X25519).rc = 0 ∧
    (scalar_mulx_cpacf ⟨false, fun _ _ => List.replicate 64 7⟩
        (List.replicate 56 3) (List.replicate 56 9) NID_X448).rc = 0 ∧
    (scalar_mulx_cpacf ⟨false, fun _ _ => []⟩ [] [] NID_X9_62_prime256v1).rc
      = EINVAL := by
  refine ⟨?_, ?_, ?_⟩
  · have h := (scalar_mulx_cpacf_clamps_and_flips
      ⟨false, fun _ _ => List.replicate 32 7⟩
      (List.replicate 32 3) (List.replicate 32 9) NID_X25519).1
      (by decide) (by decide)
    exact h.1
  · have h := ((scalar_mulx_cpacf_clamps_and_flips
      ⟨false, fun _ _ => List.replicate 64 7⟩
      (List.replicate 56 3) (List.replicate 56 9) NID_X448).2).1
      (by decide) (by decide)
    exact h.1
  · have h := ((scalar_mulx_cpacf_clamps_and_flips
      ⟨false, fun _ _ => []⟩ [] [] NID_X9_62_prime256v1).2).2
      (by decide) (by decide)
    rw [h]

/-! ## Claim C10 -/

/-- C10: at the CPU-instruction ECDSA interface the hash operand is fitted
to the curve's fixed operand width asymmetrically — left-zero-padded
(right-aligned) when shorter, silently truncated to its leftmost `width`
bytes when longer — and both ecdsa_sign_cpacf and ecdsa_verify_cpacf embed
exactly this fitted value for every supported curve. -/
theorem ecdsa_param_hash_asymmetric (nid : Nat) (hnid : nid ∈ cpacf_sign_nids)
    (envS : KdsaSignEnv) (envV : KdsaVerifyEnv) (key pub : ICA_EC_KEY)
    (hash sig : List Nat) (hk : key.nid = nid) (hp : pub.nid = nid) :
    (ecdsa_sign_cpacf_hwrand envS key hash).param_hash
        = some (ecdsa_param_hash nid hash) ∧
    ((ecdsa_verify_cpacf envV pub hash sig).param).map KdsaVerifyParam.hash
        = some (ecdsa_param_hash nid hash) ∧
    ecdsa_param_hash nid hash =
      (if hash.length ≤ hashWidth nid
       then List.replicate (hashWidth nid - hash.length) 0 ++ hash
       else hash.take (hashWidth nid)) := by
  refine ⟨?_, ?_, ?_⟩
  · subst hk
    simp [ecdsa_sign_cpacf_hwrand, hnid]
  · subst hp
    simp [ecdsa_verify_cpacf, hnid, ecdsa_verify_param]
  · simp only [ecdsa_param_hash, fit_hash]
    by_cases hle : hash.length ≤ hashWidth nid
    · rw [if_pos hle]
      have h1 : min hash.length (hashWidth nid) = hash.length := by omega
      rw [h1]
      have h2 : hashWidth nid - (hashWidth nid - hash.length) = hash.length := by
        omega
      rw [h2, List.take_length]
    · rw [if_neg hle]
      have h1 : min hash.length (hashWidth nid) = hashWidth nid := by omega
      rw [h1]
      simp

/-- Witness for C10: a 100-byte hash is truncated to 80 bytes on P-521. -/
theorem ecdsa_param_hash_asymmetric_witness :
    ecdsa_param_hash NID_secp521r1 (List.replicate 100 1)
      = List.replicate 80 1 := by
  have h := (ecdsa_param_hash_asymmetric NID_secp521r1 (by decide)
    ⟨fun _ => (0, [], []), fun _ => (0, [], [])⟩ ⟨false⟩
    ⟨NID_secp521r1, [], none, none⟩ ⟨NID_secp521r1, [], none, none⟩
    (List.replicate 100 1) [] rfl rfl).2.2
  rw [h, if_neg (by decide), List.take_replicate]
  rfl

/-! ## Claim C9 -/

/-- The fueled retry loop stops at the first accepted attempt: if the first
`n` attempts from `start` are rejected and attempt `start + n` is accepted,
then with at least `n` fuel the loop returns exactly that attempt. -/
theorem ecdsa_sign_retry_first_accept (step : Nat → Nat × List Nat × List Nat) :
    ∀ (n start fuel : Nat), (∀ j, j < n → (step (start + j)).1 ≠ 0) →
      (step (start + n)).1 = 0 → n ≤ fuel →
      ecdsa_sign_retry step start fuel = (start + n, step (start + n)) := by
  intro n
  induction n with
  | zero =>
    intro start fuel _hlt hacc _hle
    cases fuel with
    | zero => simp [ecdsa_sign_retry]
    | succ f =>
      simp only [Nat.add_zero] at hacc ⊢
      simp [ecdsa_sign_retry, hacc]
  | succ n ih =>
    intro start fuel hlt hacc hle
    cases fuel with
    | zero => omega
    | succ f =>
      have h0 : (step start).1 ≠ 0 := by
        have := hlt 0 (by omega)
        simpa using this
      have harith : start + 1 + n = start + (n + 1) := by omega
      have htail := ih (start + 1) f
        (fun j hj => by
          have := hlt (j + 1) (by omega)
          have he : start + (j + 1) = start + 1 + j := by omega
          rw [he] at this
          exact this)
        (by rw [harith]; exact hacc) (by omega)
      rw [ecdsa_sign_retry, if_neg h0, htail, harith]

/-- C9: in deterministic signing the rand value is regenerated and the
instruction re-invoked exactly until the first accepted value: all earlier
attempts were rejected, the loop's result is the accepting invocation's
signature with an invocation count of first-accepted-index + 1, and the
hardware-internal-randomness mode invokes the instruction exactly once. -/
theorem ecdsa_sign_det_retries_until_accept (env : KdsaSignEnv)
    (priv : ICA_EC_KEY) (hash : List Nat) (rng : Nat → List Nat)
    (hnid : priv.nid ∈ cpacf_sign_nids)
    (hacc : ∃ i, (sign_det_step env priv.nid hash priv.D rng i).1 = 0) :
    (∀ j, j < Nat.find hacc →
      (sign_det_step env priv.nid hash priv.D rng j).1 ≠ 0) ∧
    (∀ fuel, Nat.find hacc ≤ fuel →
      ecdsa_sign_cpacf_det env priv hash rng fuel =
        { rc := 0
          sig := some (sig_from_fields priv.nid
            (sign_det_step env priv.nid hash priv.D rng (Nat.find hacc)).2)
          param_hash := some (ecdsa_param_hash priv.nid hash)
          invocations := Nat.find hacc + 1 }) ∧
    (ecdsa_sign_cpacf_hwrand env priv hash).invocations = 1 := by
  refine ⟨?_, ?_, ?_⟩
  · intro j hj
    exact Nat.find_min hacc hj
  · intro fuel hle
    have hstep := ecdsa_sign_retry_first_accept
      (sign_det_step env priv.nid hash priv.D rng) (Nat.find hacc) 0 fuel
      (fun j hj => by
        have := Nat.find_min hacc (show j < Nat.find hacc by simpa using hj)
        simpa using this)
      (by simpa using Nat.find_spec hacc) hle
    simp only [Nat.zero_add] at hstep
    simp [ecdsa_sign_cpacf_det, hnid, hstep, Nat.find_spec hacc]
  · simp [ecdsa_sign_cpacf_hwrand, hnid]

/-- Concrete RNG stream for the C9 witness. -/
def c9_rng (i : Nat) : List Nat := List.replicate 32 i

/-- Concrete KDSA oracle for the C9 witness: the deterministic instruction
accepts exactly the third random value of the stream. -/
def c9_env : KdsaSignEnv where
  sign := fun _ => (0, [], [])
  signDet := fun p =>
    if p.rand = List.replicate 32 2 then (0, p.rand, p.rand) else (1, [], [])

/-- Concrete P-256 private key for the C9 witness. -/
def c9_key : ICA_EC_KEY :=
  ⟨NID_X9_62_prime256v1, List.replicate 32 5, none, none⟩

/-- Witness for C9: with an oracle accepting the third random value, the
loop performs exactly three invocations. -/
theorem ecdsa_sign_det_retries_until_accept_witness :
    (ecdsa_sign_cpacf_det c9_env c9_key [1, 2] c9_rng 5).invocations = 3 := by
  have hacc : ∃ i, (sign_det_step c9_env c9_key.nid [1, 2] c9_key.D c9_rng i).1 = 0 :=
    ⟨2, by decide⟩
  have hfind : Nat.find hacc = 2 := by
    rw [Nat.find_eq_iff]
    exact ⟨by decide, by decide⟩
  have h := (ecdsa_sign_det_retries_until_accept c9_env c9_key [1, 2] c9_rng
    (by decide) hacc).2.1 5 (by omega)
  rw [h, hfind]

/-! ## CCA key-token builders (coprocessor protocol codec)

The CCA structure layouts are declared in the header s390_ecc.h which is not
under src/.  Sizes below are therefore modelled from the spec (section 4.3):
every token is the packed concatenation of its length fields, token header,
sections and raw key material, so each composite size is the sum of its
parts.  Only these additive relations enter the length bookkeeping that the
claims are about. -/

/-- Modelled from the spec: sizeof(CCA_TOKEN_HDR). -/
def sizeCCA_TOKEN_HDR : Nat := 8

/-- Modelled from the spec: sizeof(ECC_PRIVATE_KEY_SECTION). -/
def sizeECC_PRIVATE_KEY_SECTION : Nat := 20

/-- Modelled from the spec: sizeof(ECC_ASSOCIATED_DATA). -/
def sizeECC_ASSOCIATED_DATA : Nat := 16

/-- Modelled from the spec: sizeof(ECC_PUBLIC_KEY_SECTION). -/
def sizeECC_PUBLIC_KEY_SECTION : Nat := 8

/-- Modelled from the spec: sizeof(ECC_PUBLIC_KEY_TOKEN) — the public-key
section immediately followed by the 1-byte compression marker. -/
def sizeECC_PUBLIC_KEY_TOKEN : Nat := sizeECC_PUBLIC_KEY_SECTION + 1

/-- Modelled from the spec: sizeof(ECC_PRIVATE_KEY_TOKEN) — two 2-byte
length/reserved fields, the token header, the private-key section and the
associated data, packed. -/
def sizeECC_PRIVATE_KEY_TOKEN : Nat :=
  2 + 2 + sizeCCA_TOKEN_HDR + sizeECC_PRIVATE_KEY_SECTION
    + sizeECC_ASSOCIATED_DATA

/-- Modelled from the spec: sizeof(ECDH_NULLKEY), a filler token whose
2-byte length field 0x0044 covers its own size. -/
def sizeECDH_NULLKEY : Nat := 68

/-- Modelled from the spec: sizeof(ECC_NULL_TOKEN) (len 0x0005, flags,
null byte). -/
def sizeECC_NULL_TOKEN : Nat := 5

/-- Modelled from the spec: sizeof(ECC_KEYBLOCK_LENGTH), the 2-byte key
block length field. -/
def sizeECC_KEYBLOCK_LENGTH : Nat := 2

/-- Modelled from the spec: sizeof(ECKEYGEN_KEY_TOKEN) — length/reserved
fields, token header, private section, associated data and an empty public
section, packed. -/
def sizeECKEYGEN_KEY_TOKEN : Nat :=
  2 + 2 + sizeCCA_TOKEN_HDR + sizeECC_PRIVATE_KEY_SECTION
    + sizeECC_ASSOCIATED_DATA + sizeECC_PUBLIC_KEY_SECTION

/-- Modelled from the spec: sizeof(ECDSA_PUBLIC_KEY_BLOCK) — length and
reserved fields, token header, public section and compression marker,
packed. -/
def sizeECDSA_PUBLIC_KEY_BLOCK : Nat :=
  2 + 2 + sizeCCA_TOKEN_HDR + sizeECC_PUBLIC_KEY_SECTION + 1

/-- CCA token header fields set by the source (remaining bytes zero). -/
structure CCA_TOKEN_HDR where
  tkn_hdr_id : Nat
  tkn_length : Nat

/-- ECC private-key section fields set by the source. -/
structure ECC_PRIVATE_KEY_SECTION where
  section_id : Nat
  version : Nat
  section_len : Nat
  key_usage : Nat
  curve_type : Nat
  key_format : Nat
  priv_p_bitlen : Nat
  associated_data_len : Nat
  ibm_associated_data_len : Nat
  formatted_data_len : Nat

/-- ECC associated-data section fields set by the source. -/
structure ECC_ASSOCIATED_DATA where
  ibm_data_len : Nat
  curve_type : Nat
  p_bitlen : Nat
  usage_flag : Nat
  format_and_sec_flag : Nat

/-- ECC public-key section fields set by the source. -/
structure ECC_PUBLIC_KEY_SECTION where
  section_id : Nat
  section_len : Nat
  curve_type : Nat
  pub_p_bitlen : Nat
  pub_q_bytelen : Nat

/-- The combined private+public key token written by make_ecdh_key_token
and make_ecdsa_private_key_token (an ECC_PRIVATE_KEY_TOKEN overlay followed
by the raw private scalar, then an ECC_PUBLIC_KEY_TOKEN overlay followed by
the raw coordinates). -/
structure ECC_KEY_TOKEN where
  key_len : Nat
  reserved : Nat
  tknhdr : CCA_TOKEN_HDR
  privsec : ECC_PRIVATE_KEY_SECTION
  adata : ECC_ASSOCIATED_DATA
  privkey : List Nat
  pubsec : ECC_PUBLIC_KEY_SECTION
  compress_flag : Nat
  pubkey : List Nat

/-- Model of `make_ecdh_key_token`: builds the combined token from
privkey_A's D and pubkey_B's (X, Y) and returns it with the byte count the
C function reports (this_length). -/
def make_ecdh_key_token (privkey_A pubkey_B : ICA_EC_KEY)
    (curve_type : Nat) : ECC_KEY_TOKEN × Nat :=
  let privlen := privlen_from_nid privkey_A.nid
  let this_length := sizeECC_PRIVATE_KEY_TOKEN + privlen
    + sizeECC_PUBLIC_KEY_TOKEN + 2 * privlen
  let ecdhkey_length := 2 + 2 + sizeCCA_TOKEN_HDR
    + sizeECC_PRIVATE_KEY_SECTION + sizeECC_ASSOCIATED_DATA + privlen
    + sizeECC_PUBLIC_KEY_TOKEN + 2 * privlen
  let priv_bitlen := if privkey_A.nid = NID_secp521r1 then 521
    else privlen * 8
  ({ key_len := ecdhkey_length
     reserved := 0
     tknhdr := { tkn_hdr_id := 0x1E, tkn_length := ecdhkey_length - 2 - 2 }
     privsec :=
       { section_id := 0x20, version := 0
         section_len := sizeECC_PRIVATE_KEY_SECTION
           + sizeECC_ASSOCIATED_DATA + privlen
         key_usage := 0xC0, curve_type := curve_type, key_format := 0x40
         priv_p_bitlen := priv_bitlen
         associated_data_len := sizeECC_ASSOCIATED_DATA
         ibm_associated_data_len := sizeECC_ASSOCIATED_DATA
         formatted_data_len := privlen }
     adata :=
       { ibm_data_len := sizeECC_ASSOCIATED_DATA, curve_type := curve_type
         p_bitlen := priv_bitlen, usage_flag := 0xC0
         format_and_sec_flag := 0x40 }
     privkey := privkey_A.D.take privlen
     pubsec :=
       { section_id := 0x21
         section_len := sizeECC_PUBLIC_KEY_TOKEN + 2 * privlen
         curve_type := curve_type, pub_p_bitlen := priv_bitlen
         pub_q_bytelen := 2 * privlen + 1 }
     compress_flag := 0x04
     pubkey := (pubkey_B.X.getD []).take privlen
       ++ (pubkey_B.Y.getD []).take privlen },
   this_length)

/-- Model of `make_ecdsa_private_key_token`: like the ECDH variant but with
key usage 0x80, the reserved word 0x0020, and the caller-supplied (X, Y)
buffers for the public part. -/
def make_ecdsa_private_key_token (privkey : ICA_EC_KEY) (X Y : List Nat)
    (curve_type : Nat) : ECC_KEY_TOKEN × Nat :=
  let privlen := privlen_from_nid privkey.nid
  let ecdsakey_length := 2 + 2 + sizeCCA_TOKEN_HDR
    + sizeECC_PRIVATE_KEY_SECTION + sizeECC_ASSOCIATED_DATA + privlen
    + sizeECC_PUBLIC_KEY_TOKEN + 2 * privlen
  let priv_bitlen := if privkey.nid = NID_secp521r1 then 521
    else privlen * 8
  ({ key_len := ecdsakey_length
     reserved := 0x0020
     tknhdr := { tkn_hdr_id := 0x1E, tkn_length := ecdsakey_length - 2 - 2 }
     privsec :=
       { section_id := 0x20, version := 0
         section_len := sizeECC_PRIVATE_KEY_SECTION
           + sizeECC_ASSOCIATED_DATA + privlen
         key_usage := 0x80, curve_type := curve_type, key_format := 0x40
         priv_p_bitlen := priv_bitlen
         associated_data_len := sizeECC_ASSOCIATED_DATA
         ibm_associated_data_len := sizeECC_ASSOCIATED_DATA
         formatted_data_len := privlen }
     adata :=
       { ibm_data_len := sizeECC_ASSOCIATED_DATA, curve_type := curve_type
         p_bitlen := priv_bitlen, usage_flag := 0x80
         format_and_sec_flag := 0x40 }
     privkey := privkey.D.take privlen
     pubsec :=
       { section_id := 0x21
         section_len := sizeECC_PUBLIC_KEY_TOKEN + 2 * privlen
         curve_type := curve_type, pub_p_bitlen := priv_bitlen
         pub_q_bytelen := 2 * privlen + 1 }
     compress_flag := 0x04
     pubkey := X.take privlen ++ Y.take privlen },
   sizeECC_PRIVATE_KEY_TOKEN + privlen + sizeECC_PUBLIC_KEY_TOKEN
     + 2 * privlen)

/-- The public-key block written by make_ecdsa_public_key_token. -/
structure ECDSA_PUBLIC_KEY_BLOCK where
  key_len : Nat
  tknhdr : CCA_TOKEN_HDR
  pubsec : ECC_PUBLIC_KEY_SECTION
  compress_flag : Nat
  pubkey : List Nat

/-- Model of `make_ecdsa_public_key_token`. -/
def make_ecdsa_public_key_token (pubkey : ICA_EC_KEY) (curve_type : Nat) :
    ECDSA_PUBLIC_KEY_BLOCK × Nat :=
  let privlen := privlen_from_nid pubkey.nid
  let this_length := sizeECDSA_PUBLIC_KEY_BLOCK + 2 * privlen
  let priv_bitlen := if pubkey.nid = NID_secp521r1 then 521
    else privlen * 8
  ({ key_len := this_length
     tknhdr := { tkn_hdr_id := 0x1E, tkn_length := this_length - 2 - 2 }
     pubsec :=
       { section_id := 0x21
         section_len := sizeECC_PUBLIC_KEY_TOKEN + 2 * privlen
         curve_type := curve_type, pub_p_bitlen := priv_bitlen
         pub_q_bytelen := 2 * privlen + 1 }
     compress_flag := 0x04
     pubkey := (pubkey.X.getD []).take privlen
       ++ (pubkey.Y.getD []).take privlen },
   this_length)

/-- The skeleton token written by make_eckeygen_private_key_token (no key
material yet). -/
structure ECKEYGEN_KEY_TOKEN where
  key_len : Nat
  reserved1 : Nat
  tknhdr : CCA_TOKEN_HDR
  privsec : ECC_PRIVATE_KEY_SECTION
  adata : ECC_ASSOCIATED_DATA
  pubsec : ECC_PUBLIC_KEY_SECTION

/-- Model of `make_eckeygen_private_key_token`. -/
def make_eckeygen_private_key_token (nid curve_type : Nat) :
    ECKEYGEN_KEY_TOKEN × Nat :=
  let privlen := privlen_from_nid nid
  let priv_bitlen := if nid = NID_secp521r1 then 521 else privlen * 8
  ({ key_len := sizeECKEYGEN_KEY_TOKEN
     reserved1 := 0x0020
     tknhdr := { tkn_hdr_id := 0x1E
                 tkn_length := sizeECKEYGEN_KEY_TOKEN - 2 - 2 }
     privsec :=
       { section_id := 0x20, version := 0
         section_len := sizeECC_PRIVATE_KEY_SECTION + sizeECC_ASSOCIATED_DATA
         key_usage := 0x80, curve_type := curve_type, key_format := 0x40
         priv_p_bitlen := priv_bitlen
         associated_data_len := sizeECC_ASSOCIATED_DATA
         ibm_associated_data_len := sizeECC_ASSOCIATED_DATA
         formatted_data_len := 0 }
     adata :=
       { ibm_data_len := sizeECC_ASSOCIATED_DATA, curve_type := curve_type
         p_bitlen := priv_bitlen, usage_flag := 0x80
         format_and_sec_flag := 0x40 }
     pubsec :=
       { section_id := 0x21, section_len := sizeECC_PUBLIC_KEY_SECTION
         curve_type := curve_type, pub_p_bitlen := priv_bitlen
         pub_q_bytelen := 0 } },
   sizeECKEYGEN_KEY_TOKEN)

/-! ## The ECDH request key block (make_ecdh_request) -/

/-- One write into the key-block area of the ECDH request: the 2-byte
length field, a real key token, or a null-key filler token.  Each carries
the declared length value the source stores and the byte count by which the
write advances the offset. -/
inductive ReqWrite
  | kbLen : Nat → Nat → ReqWrite
  | key : ECC_KEY_TOKEN → Nat → ReqWrite
  | nullkey : Nat → Nat → ReqWrite

/-- Byte count by which a write advances the offset. -/
def ReqWrite.bytes : ReqWrite → Nat
  | .kbLen _ b => b
  | .key _ b => b
  | .nullkey _ b => b

/-- The real key tokens among the writes. -/
def keyTokensOf (ws : List ReqWrite) : List ECC_KEY_TOKEN :=
  ws.filterMap fun w => match w with
    | .key t _ => some t
    | _ => none

/-- The number of null-key filler tokens among the writes. -/
def nullkeyCount (ws : List ReqWrite) : Nat :=
  (ws.filter fun w => match w with
    | .nullkey _ _ => true
    | _ => false).length

/-- The declared key-block length (the value make_keyblock_length stores). -/
def declaredKbLen (ws : List ReqWrite) : Option Nat :=
  match ws with
  | .kbLen d _ :: _ => some d
  | _ => none

/-- The key-block writes of `make_ecdh_request` in source order: length
field, key token, null key, key token, null key, null key, null key.
make_nullkey stores 0x0044 as each filler's length value. -/
def ecdh_keyblock_writes (privkey_A pubkey_B : ICA_EC_KEY) (ct : Nat) :
    List ReqWrite :=
  let privlen := privlen_from_nid privkey_A.nid
  let ecdh_key_token_len := 2 + 2 + sizeCCA_TOKEN_HDR
    + sizeECC_PRIVATE_KEY_SECTION + sizeECC_ASSOCIATED_DATA + privlen
    + sizeECC_PUBLIC_KEY_TOKEN + 2 * privlen
  let keyblock_len := 2 + 2 * ecdh_key_token_len + 4 * sizeECDH_NULLKEY
  let t := make_ecdh_key_token privkey_A pubkey_B ct
  [ .kbLen keyblock_len sizeECC_KEYBLOCK_LENGTH
  , .key t.1 t.2, .nullkey 0x44 sizeECDH_NULLKEY
  , .key t.1 t.2, .nullkey 0x44 sizeECDH_NULLKEY
  , .nullkey 0x44 sizeECDH_NULLKEY, .nullkey 0x44 sizeECDH_NULLKEY ]

/-- Model of the key-block portion of `make_ecdh_request`: fails (returns
NULL before allocating) when the curve has no CCA curve type. -/
def make_ecdh_request_keyblock (privkey_A pubkey_B : ICA_EC_KEY) :
    Option (List ReqWrite) :=
  if curve_type_from_nid privkey_A.nid < 0 then none
  else some (ecdh_keyblock_writes privkey_A pubkey_B
    (curve_type_from_nid privkey_A.nid).toNat)

/-! ## Claim C6 -/

/-- The curves the coprocessor protocol can encode (those with a
nonnegative curve-type code). -/
def cca_nids : List Nat := [NID_X9_62_prime256v1, NID_secp384r1, NID_secp521r1]

/-- The bit length the claim says every token must carry: 8 times the
curve's byte length except for the 521-bit curve, which carries exactly
521. -/
def expected_bitlen (nid : Nat) : Nat :=
  if nid = NID_secp521r1 then 521 else 8 * privlen_from_nid nid

/-- C6: every key token built for the coprocessor carries a bit-length
field of 8 * byte length, except NID_secp521r1 whose tokens carry exactly
521 (not 528) in every private-section, associated-data and public-section
bit-length field, across the ECDH, ECDSA and key-generation builders. -/
theorem cca_token_bitlen_fields (nid ct : Nat) (hnid : nid ∈ cca_nids)
    (privA pubB pk : ICA_EC_KEY) (X Y : List Nat)
    (hA : privA.nid = nid) (hpk : pk.nid = nid) :
    ((make_ecdh_key_token privA pubB ct).1.privsec.priv_p_bitlen
        = expected_bitlen nid ∧
      (make_ecdh_key_token privA pubB ct).1.adata.p_bitlen
        = expected_bitlen nid ∧
      (make_ecdh_key_token privA pubB ct).1.pubsec.pub_p_bitlen
        = expected_bitlen nid) ∧
    ((make_ecdsa_private_key_token privA X Y ct).1.privsec.priv_p_bitlen
        = expected_bitlen nid ∧
      (make_ecdsa_private_key_token privA X Y ct).1.adata.p_bitlen
        = expected_bitlen nid ∧
      (make_ecdsa_private_key_token privA X Y ct).1.pubsec.pub_p_bitlen
        = expected_bitlen nid) ∧
    (make_ecdsa_public_key_token pk ct).1.pubsec.pub_p_bitlen
        = expected_bitlen nid ∧
    ((make_eckeygen_private_key_token nid ct).1.privsec.priv_p_bitlen
        = expected_bitlen nid ∧
      (make_eckeygen_private_key_token nid ct).1.adata.p_bitlen
        = expected_bitlen nid ∧
      (make_eckeygen_private_key_token nid ct).1.pubsec.pub_p_bitlen
        = expected_bitlen nid) ∧
    (nid = NID_secp521r1 →
      expected_bitlen nid = 521 ∧ 8 * privlen_from_nid nid = 528) := by
  have hbl : ∀ m : Nat, m = nid →
      (if m = NID_secp521r1 then 521 else privlen_from_nid m * 8)
        = expected_bitlen nid := by
    intro m hm
    subst hm
    unfold expected_bitlen
    by_cases h521 : m = NID_secp521r1
    · rw [if_pos h521, if_pos h521]
    · rw [if_neg h521, if_neg h521, Nat.mul_comm]
  refine ⟨⟨?_, ?_, ?_⟩, ⟨?_, ?_, ?_⟩, ?_, ⟨?_, ?_, ?_⟩, ?_⟩
  · exact hbl privA.nid hA
  · exact hbl privA.nid hA
  · exact hbl privA.nid hA
  · exact hbl privA.nid hA
  · exact hbl privA.nid hA
  · exact hbl privA.nid hA
  · exact hbl pk.nid hpk
  · exact hbl nid rfl
  · exact hbl nid rfl
  · exact hbl nid rfl
  · intro h521
    subst h521
    exact ⟨by decide, by decide⟩

/-- Witness for C6 at the 521-bit curve. -/
theorem cca_token_bitlen_fields_witness :
    (make_eckeygen_private_key_token NID_secp521r1 0).1.privsec.priv_p_bitlen
      = 521 ∧ 8 * privlen_from_nid NID_secp521r1 = 528 := by
  have h := cca_token_bitlen_fields NID_secp521r1 0 (by decide)
    ⟨NID_secp521r1, [], none, none⟩ ⟨NID_secp521r1, [], none, none⟩
    ⟨NID_secp521r1, [], none, none⟩ [] [] rfl rfl
  refine ⟨?_, (h.2.2.2.2 rfl).2⟩
  rw [h.2.2.2.1.1, (h.2.2.2.2 rfl).1]

/-! ## Claim C7 -/

/-- C7: the key block of the ECDH request consists of the 2-byte length
field, two identical real key tokens and exactly four null-key fillers; the
declared keyblock_len equals both the claim's formula
2 + 2 * token length + 4 * null-key size and the sum of the bytes actually
written; and every length field inside the token matches the bytes written
for the corresponding region. -/
theorem ecdh_request_keyblock_consistent (privA pubB : ICA_EC_KEY)
    (hct : ¬ curve_type_from_nid privA.nid < 0)
    (hD : privA.D.length = privlen_from_nid privA.nid)
    (hX : (pubB.X.getD []).length = privlen_from_nid privA.nid)
    (hY : (pubB.Y.getD []).length = privlen_from_nid privA.nid) :
    make_ecdh_request_keyblock privA pubB
      = some (ecdh_keyblock_writes privA pubB
          (curve_type_from_nid privA.nid).toNat) ∧
    (let ws := ecdh_keyblock_writes privA pubB
      (curve_type_from_nid privA.nid).toNat
     let tk := make_ecdh_key_token privA pubB
      (curve_type_from_nid privA.nid).toNat
     keyTokensOf ws = [tk.1, tk.1] ∧
     nullkeyCount ws = 4 ∧
     declaredKbLen ws = some (2 + 2 * tk.2 + 4 * sizeECDH_NULLKEY) ∧
     declaredKbLen ws = some ((ws.map ReqWrite.bytes).sum) ∧
     tk.1.key_len = tk.2 ∧
     tk.1.tknhdr.tkn_length = tk.1.key_len - 2 - 2 ∧
     tk.1.privsec.section_len = sizeECC_PRIVATE_KEY_SECTION
       + sizeECC_ASSOCIATED_DATA + tk.1.privkey.length ∧
     tk.1.privsec.formatted_data_len = tk.1.privkey.length ∧
     tk.1.privsec.associated_data_len = sizeECC_ASSOCIATED_DATA ∧
     tk.1.adata.ibm_data_len = sizeECC_ASSOCIATED_DATA ∧
     tk.1.pubsec.section_len = sizeECC_PUBLIC_KEY_TOKEN
       + tk.1.pubkey.length ∧
     tk.1.pubsec.pub_q_bytelen = tk.1.pubkey.length + 1 ∧
     tk.1.privkey.length = privlen_from_nid privA.nid ∧
     tk.1.pubkey.length = 2 * privlen_from_nid privA.nid) := by
  constructor
  · simp [make_ecdh_request_keyblock, hct]
  · have hpriv : (privA.D.take (privlen_from_nid privA.nid)).length
        = privlen_from_nid privA.nid := by
      rw [List.length_take]
      omega
    have hpub : ((pubB.X.getD []).take (privlen_from_nid privA.nid)
        ++ (pubB.Y.getD []).take (privlen_from_nid privA.nid)).length
        = 2 * privlen_from_nid privA.nid := by
      rw [List.length_append, List.length_take, List.length_take]
      omega
    refine ⟨?_, ?_, ?_, ?_, ?_, ?_, ?_, ?_, ?_, ?_, ?_, ?_, ?_, ?_⟩
    · simp [ecdh_keyblock_writes, keyTokensOf]
    · simp [ecdh_keyblock_writes, nullkeyCount]
    · simp only [ecdh_keyblock_writes, declaredKbLen, make_ecdh_key_token,
        Option.some.injEq, sizeECC_PRIVATE_KEY_TOKEN]
    · simp only [ecdh_keyblock_writes, declaredKbLen, make_ecdh_key_token,
        List.map_cons, List.map_nil, List.sum_cons, List.sum_nil,
        ReqWrite.bytes, Option.some.injEq, sizeECC_PRIVATE_KEY_TOKEN,
        sizeECC_KEYBLOCK_LENGTH]
      omega
    · simp only [make_ecdh_key_token, sizeECC_PRIVATE_KEY_TOKEN]
    · simp [make_ecdh_key_token]
    · simp only [make_ecdh_key_token]
      rw [hpriv]
    · simp only [make_ecdh_key_token]
      rw [hpriv]
    · simp [make_ecdh_key_token]
    · simp [make_ecdh_key_token]
    · simp only [make_ecdh_key_token]
      rw [hpub]
    · simp only [make_ecdh_key_token]
      rw [hpub]
    · simp only [make_ecdh_key_token]
      rw [hpriv]
    · simp only [make_ecdh_key_token]
      rw [hpub]

/-- Concrete P-256 keys for the C7 witness. -/
def c7_privA : ICA_EC_KEY :=
  ⟨NID_X9_62_prime256v1, List.replicate 32 5, none, none⟩

/-- Concrete peer public key for the C7 witness. -/
def c7_pubB : ICA_EC_KEY :=
  ⟨NID_X9_62_prime256v1, [], some (List.replicate 32 6),
    some (List.replicate 32 7)⟩

/-- Witness for C7 at concrete P-256 keys. -/
theorem ecdh_request_keyblock_consistent_witness :
    nullkeyCount (ecdh_keyblock_writes c7_privA c7_pubB 0) = 4 := by
  have h := (ecdh_request_keyblock_consistent c7_privA c7_pubB
    (by decide) (by decide) (by decide) (by decide)).2.2.1
  exact h

/-! ## scalar_mul_cpacf and the hardware-tier dispatchers

The four `*_hw` entry points sequence CPU-instruction tier → coprocessor
tier.  Hardware instructions, malloc, the ioctl transport and the reply
contents are oracles in an environment record; each model returns the
final return code together with a trace (was the instruction tier entered,
was a request submitted, which caller buffers were written, was the request
buffer leaked). -/

/-- Curves supported by the PCC scalar-multiply instruction path. -/
def scalar_mul_nids : List Nat :=
  [NID_X9_62_prime256v1, NID_secp384r1, NID_secp521r1, NID_ED25519, NID_ED448]

/-- Parameter-field width per scalar_mul curve (the sizes of the union
members in the source: 32/48/80/32/64). -/
def scalarMulWidth (nid : Nat) : Nat :=
  if nid = NID_X9_62_prime256v1 then 32
  else if nid = NID_secp384r1 then 48
  else if nid = NID_secp521r1 then 80
  else if nid = NID_ED25519 then 32
  else 64

/-- Oracle outcome of one PCC scalar-multiply invocation: whether s390_pcc
returned nonzero and the contents of the res_x/res_y fields afterwards. -/
structure PccMulEnv where
  fault : Bool
  res_x : List Nat
  res_y : List Nat

/-- Result of a scalar_mul_cpacf call: return code and the bytes copied to
the caller's non-NULL result buffers (copied even when the instruction
faulted, as in the source). -/
structure MulOut where
  rc : Nat
  res_x : Option (List Nat)
  res_y : Option (List Nat)

/-- Model of `scalar_mul_cpacf`: EINVAL for curves outside the PCC set;
otherwise EIO/0 per the instruction outcome, with `privlen` bytes copied
out of each result field from offset `width - privlen`. -/
def scalar_mul_cpacf (env : PccMulEnv) (nid : Nat) : MulOut :=
  if nid ∈ scalar_mul_nids then
    let w := scalarMulWidth nid
    let l := privlen_from_nid nid
    { rc := if env.fault then EIO else 0
      res_x := some ((env.res_x.drop (w - l)).take l)
      res_y := some ((env.res_y.drop (w - l)).take l) }
  else { rc := EINVAL, res_x := none, res_y := none }

/-- Process-wide feature switches read by the dispatchers. -/
structure EccConfig where
  msa9_switch : Bool
  ica_offload_enabled : Bool
  ecc_via_online_card : Bool

/-- Oracle outcomes for the request-buffer allocation and the ioctl
submission. -/
structure CardEnv where
  malloc_ok : Bool
  ioctl_rc : Int

/-- Contents of the coprocessor's ECDH reply. -/
structure EcdhReplyEnv where
  key_len : Int
  raw_z : List Nat

/-- Environment of one ecdh_hw call. -/
structure EcdhEnv where
  pcc : PccMulEnv
  card : CardEnv
  reply : EcdhReplyEnv

/-- Trace of one ecdh_hw call. -/
structure EcdhOut where
  rc : Nat
  cpacf_invoked : Bool
  submitted : Bool
  request_token : Option ECC_KEY_TOKEN
  z_written : Option (List Nat)
  leaked : Bool

/-- The coprocessor portion of `ecdh_hw` (everything after the instruction
tier): card-permission gate, DRIVER_NOT_LOADED gate, request construction,
submission and reply-length validation. -/
def ecdh_hw_card (cfg : EccConfig) (env : EcdhEnv) (adapter : Int)
    (privA pubB : ICA_EC_KEY) (cp : Bool) : EcdhOut :=
  let privlen := privlen_from_nid privA.nid
  if !cfg.ecc_via_online_card then
    { rc := ENODEV, cpacf_invoked := cp, submitted := false,
      request_token := none, z_written := none, leaked := false }
  else if adapter = DRIVER_NOT_LOADED then
    { rc := EIO, cpacf_invoked := cp, submitted := false,
      request_token := none, z_written := none, leaked := false }
  else if curve_type_from_nid privA.nid < 0 then
    { rc := EIO, cpacf_invoked := cp, submitted := false,
      request_token := none, z_written := none, leaked := false }
  else if !env.card.malloc_ok then
    { rc := EIO, cpacf_invoked := cp, submitted := false,
      request_token := none, z_written := none, leaked := false }
  else
    let tok := (make_ecdh_key_token privA pubB
      (curve_type_from_nid privA.nid).toNat).1
    if env.card.ioctl_rc ≠ 0 then
      { rc := EIO, cpacf_invoked := cp, submitted := true,
        request_token := some tok, z_written := none, leaked := false }
    else if env.reply.key_len - 4 ≠ (privlen : Int) then
      { rc := EIO, cpacf_invoked := cp, submitted := true,
        request_token := some tok, z_written := none, leaked := false }
    else
      { rc := 0, cpacf_invoked := cp, submitted := true,
        request_token := some tok,
        z_written := some (env.reply.raw_z.take privlen), leaked := false }

/-- Model of `ecdh_hw`. -/
def ecdh_hw (cfg : EccConfig) (env : EcdhEnv) (adapter : Int)
    (privA pubB : ICA_EC_KEY) : EcdhOut :=
  if cfg.msa9_switch && !cfg.ica_offload_enabled then
    let r := scalar_mul_cpacf env.pcc privA.nid
    if r.rc ≠ EINVAL then
      { rc := r.rc, cpacf_invoked := true, submitted := false,
        request_token := none, z_written := r.res_x, leaked := false }
    else ecdh_hw_card cfg env adapter privA pubB true
  else ecdh_hw_card cfg env adapter privA pubB false

/-- Model of `provide_pubkey`: copy the caller's (X, Y) when both are
present, otherwise derive the public point from D via the EC library's
point multiplication (the oracle `derive`, yielding the coordinates as
minimal big-endian byte strings that the source left-zero-pads to
`privlen`); EFAULT when the library fails.  The Bool records whether the
derivation ran. -/
def provide_pubkey (derive : Option (List Nat × List Nat))
    (key : ICA_EC_KEY) : Except Nat ((List Nat × List Nat) × Bool) :=
  let privlen := privlen_from_nid key.nid
  match key.X, key.Y with
  | some x, some y => .ok ((x.take privlen, y.take privlen), false)
  | _, _ =>
    match derive with
    | none => .error EFAULT
    | some (bnx, bny) =>
      .ok ((List.replicate (privlen - bnx.length) 0 ++ bnx,
            List.replicate (privlen - bny.length) 0 ++ bny), true)

/-- Contents of the coprocessor's ECDSA-sign reply. -/
structure SignReplyEnv where
  vud_len : Int
  signature : List Nat

/-- Environment of one ecdsa_sign_hw call. -/
structure SignHwEnv where
  kdsa : KdsaSignEnv
  derive : Option (List Nat × List Nat)
  card : CardEnv
  reply : SignReplyEnv

/-- Trace of one ecdsa_sign_hw call. -/
structure SignHwOut where
  rc : Nat
  cpacf_invoked : Bool
  derive_invoked : Bool
  request_XY : Option (List Nat × List Nat)
  submitted : Bool
  sig_written : Option (List Nat)
  leaked : Bool

/-- The coprocessor portion of `ecdsa_sign_hw`: gates, provide_pubkey,
request construction, submission and reply-length validation. -/
def ecdsa_sign_hw_card (cfg : EccConfig) (env : SignHwEnv) (adapter : Int)
    (privkey : ICA_EC_KEY) (cp : Bool) : SignHwOut :=
  let privlen := privlen_from_nid privkey.nid
  if !cfg.ecc_via_online_card then
    { rc := ENODEV, cpacf_invoked := cp, derive_invoked := false,
      request_XY := none, submitted := false, sig_written := none,
      leaked := false }
  else if adapter = DRIVER_NOT_LOADED then
    { rc := EIO, cpacf_invoked := cp, derive_invoked := false,
      request_XY := none, submitted := false, sig_written := none,
      leaked := false }
  else
    match provide_pubkey env.derive privkey with
    | .error _ =>
      { rc := EIO, cpacf_invoked := cp, derive_invoked := false,
        request_XY := none, submitted := false, sig_written := none,
        leaked := false }
    | .ok (xy, derived) =>
      if curve_type_from_nid privkey.nid < 0 then
        { rc := EIO, cpacf_invoked := cp, derive_invoked := derived,
          request_XY := none, submitted := false, sig_written := none,
          leaked := false }
      else if !env.card.malloc_ok then
        { rc := EIO, cpacf_invoked := cp, derive_invoked := derived,
          request_XY := none, submitted := false, sig_written := none,
          leaked := false }
      else if env.card.ioctl_rc ≠ 0 then
        { rc := EIO, cpacf_invoked := cp, derive_invoked := derived,
          request_XY := some xy, submitted := true, sig_written := none,
          leaked := false }
      else if env.reply.vud_len - 8 ≠ (2 * privlen : Int) then
        { rc := EIO, cpacf_invoked := cp, derive_invoked := derived,
          request_XY := some xy, submitted := true, sig_written := none,
          leaked := false }
      else
        { rc := 0, cpacf_invoked := cp, derive_invoked := derived,
          request_XY := some xy, submitted := true,
          sig_written := some (env.reply.signature.take
            ((env.reply.vud_len - 8).toNat)), leaked := false }

/-- Model of `ecdsa_sign_hw` (the instruction tier runs with rng_cb ==
NULL, i.e. hardware-internal randomness). -/
def ecdsa_sign_hw (cfg : EccConfig) (env : SignHwEnv) (adapter : Int)
    (privkey : ICA_EC_KEY) (hash : List Nat) : SignHwOut :=
  if cfg.msa9_switch && !cfg.ica_offload_enabled then
    let r := ecdsa_sign_cpacf_hwrand env.kdsa privkey hash
    if r.rc ≠ EINVAL then
      { rc := r.rc, cpacf_invoked := true, derive_invoked := false,
        request_XY := none, submitted := false, sig_written := r.sig,
        leaked := false }
    else ecdsa_sign_hw_card cfg env adapter privkey true
  else ecdsa_sign_hw_card cfg env adapter privkey false

/-- Status words of the coprocessor's ECDSA-verify reply CPRB. -/
structure VerifyReplyEnv where
  rtcode : Nat
  rscode : Nat

/-- Environment of one ecdsa_verify_hw call. -/
structure VerifyHwEnv where
  kdsa : KdsaVerifyEnv
  card : CardEnv
  reply : VerifyReplyEnv

/-- Trace of one ecdsa_verify_hw call. -/
structure VerifyHwOut where
  rc : Nat
  cpacf_invoked : Bool
  submitted : Bool
  leaked : Bool

/-- The coprocessor portion of `ecdsa_verify_hw`.  Faithful to the source's
builder: make_ecdsa_verify_request allocates the request buffer BEFORE
checking the curve type, and returns NULL on an unknown curve without
freeing it; the caller then returns EIO without wiping or freeing either —
that path leaks the allocated buffer. -/
def ecdsa_verify_hw_card (cfg : EccConfig) (env : VerifyHwEnv)
    (adapter : Int) (pub : ICA_EC_KEY) (cp : Bool) : VerifyHwOut :=
  if !cfg.ecc_via_online_card then
    { rc := ENODEV, cpacf_invoked := cp, submitted := false, leaked := false }
  else if adapter = DRIVER_NOT_LOADED then
    { rc := EIO, cpacf_invoked := cp, submitted := false, leaked := false }
  else if !env.card.malloc_ok then
    { rc := EIO, cpacf_invoked := cp, submitted := false, leaked := false }
  else if curve_type_from_nid pub.nid < 0 then
    { rc := EIO, cpacf_invoked := cp, submitted := false, leaked := true }
  else if env.card.ioctl_rc ≠ 0 then
    { rc := EIO, cpacf_invoked := cp, submitted := true, leaked := false }
  else if env.reply.rtcode = 4 ∧ env.reply.rscode = RS_SIGNATURE_INVALID then
    { rc := EFAULT, cpacf_invoked := cp, submitted := true, leaked := false }
  else if env.reply.rtcode ≠ 0 ∨ env.reply.rscode ≠ 0 then
    { rc := EIO, cpacf_invoked := cp, submitted := true, leaked := false }
  else
    { rc := 0, cpacf_invoked := cp, submitted := true, leaked := false }

/-- Model of `ecdsa_verify_hw`. -/
def ecdsa_verify_hw (cfg : EccConfig) (env : VerifyHwEnv) (adapter : Int)
    (pub : ICA_EC_KEY) (hash sig : List Nat) : VerifyHwOut :=
  if cfg.msa9_switch && !cfg.ica_offload_enabled then
    let r := ecdsa_verify_cpacf env.kdsa pub hash sig
    if r.rc ≠ EINVAL then
      { rc := r.rc, cpacf_invoked := true, submitted := false,
        leaked := false }
    else ecdsa_verify_hw_card cfg env adapter pub true
  else ecdsa_verify_hw_card cfg env adapter pub false

/-- Model of the return-code mapping of `ecdsa_verify_sw`: EACCES under
FIPS blocking, EINVAL for curves the library does not support, EIO when key
construction fails, then the library's verify result mapped 0 ↦ EFAULT
(signature invalid), 1 ↦ 0 (valid), anything else ↦ EIO. -/
def ecdsa_verify_sw (fips_blocked curve_supported make_key_ok : Bool)
    (verify_result : Int) : Nat :=
  if fips_blocked then EACCES
  else if !curve_supported then EINVAL
  else if !make_key_ok then EIO
  else if verify_result = 0 then EFAULT
  else if verify_result = 1 then 0
  else EIO

/-- Curves supported by the `eckeygen_cpacf` software-selected base-point
table. -/
def keygen_cpacf_nids : List Nat :=
  [NID_X9_62_prime256v1, NID_secp384r1, NID_secp521r1]

/-- Environment of one eckeygen_cpacf call: BN allocation and random-number
outcomes (the BN library's bn2bin is modelled as consistent), plus the PCC
instruction outcome. -/
structure KeygenCpacfEnv where
  alloc_fail : Bool
  rand_fail : Bool
  rand_bytes : List Nat
  pcc : PccMulEnv

/-- Result of an eckeygen_cpacf call: return code and the bytes written to
key->D, key->X, key->Y (`none` = untouched). -/
structure KeygenCpacfOut where
  rc : Nat
  D : Option (List Nat)
  X : Option (List Nat)
  Y : Option (List Nat)

/-- Model of `eckeygen_cpacf`: ENOMEM on BN allocation failure, EINVAL
outside the P-curve table, EIO when the RNG fails; otherwise D is the
left-zero-padded random scalar and (X, Y) come from the scalar
multiplication with the curve's base point (written even on fault, rc then
EIO). -/
def eckeygen_cpacf (env : KeygenCpacfEnv) (nid : Nat) : KeygenCpacfOut :=
  if env.alloc_fail then { rc := ENOMEM, D := none, X := none, Y := none }
  else if nid ∉ keygen_cpacf_nids then
    { rc := EINVAL, D := none, X := none, Y := none }
  else if env.rand_fail then { rc := EIO, D := none, X := none, Y := none }
  else
    let l := privlen_from_nid nid
    let r := scalar_mul_cpacf env.pcc nid
    { rc := r.rc
      D := some (List.replicate (l - env.rand_bytes.length) 0
        ++ env.rand_bytes)
      X := r.res_x
      Y := r.res_y }

/-- Contents of the coprocessor's key-generation reply. -/
structure KeygenReplyEnv where
  formatted_data_len : Nat
  privkey : List Nat
  compress_flag : Nat
  pubkey : List Nat

/-- Environment of one eckeygen_hw call. -/
structure KeygenEnv where
  cpacf : KeygenCpacfEnv
  card : CardEnv
  reply : KeygenReplyEnv

/-- Trace of one eckeygen_hw call. -/
structure KeygenOut where
  rc : Nat
  cpacf_invoked : Bool
  submitted : Bool
  D_written : Option (List Nat)
  X_written : Option (List Nat)
  Y_written : Option (List Nat)
  leaked : Bool

/-- The coprocessor portion of `eckeygen_hw`.  Note the source: key->D is
copied as soon as the formatted-data length matches, BEFORE the public
token's compression marker is checked. -/
def eckeygen_hw_card (cfg : EccConfig) (env : KeygenEnv)
    (key : ICA_EC_KEY) (cp : Bool) : KeygenOut :=
  let privlen := privlen_from_nid key.nid
  if !cfg.ecc_via_online_card then
    { rc := ENODEV, cpacf_invoked := cp, submitted := false,
      D_written := none, X_written := none, Y_written := none,
      leaked := false }
  else if curve_type_from_nid key.nid < 0 then
    { rc := EIO, cpacf_invoked := cp, submitted := false,
      D_written := none, X_written := none, Y_written := none,
      leaked := false }
  else if !env.card.malloc_ok then
    { rc := EIO, cpacf_invoked := cp, submitted := false,
      D_written := none, X_written := none, Y_written := none,
      leaked := false }
  else if env.card.ioctl_rc ≠ 0 then
    { rc := EIO, cpacf_invoked := cp, submitted := true,
      D_written := none, X_written := none, Y_written := none,
      leaked := false }
  else if env.reply.formatted_data_len ≠ privlen then
    { rc := EIO, cpacf_invoked := cp, submitted := true,
      D_written := none, X_written := none, Y_written := none,
      leaked := false }
  else if env.reply.compress_flag ≠ 0x04 then
    { rc := EIO, cpacf_invoked := cp, submitted := true,
      D_written := some (env.reply.privkey.take privlen),
      X_written := none, Y_written := none, leaked := false }
  else
    { rc := 0, cpacf_invoked := cp, submitted := true,
      D_written := some (env.reply.privkey.take privlen),
      X_written := some (env.reply.pubkey.take (2 * privlen)),
      Y_written := none, leaked := false }

/-- Model of `eckeygen_hw`.  Faithful to the source: the instruction tier
is gated on msa9_switch alone (the offload switch is not consulted) and
there is no DRIVER_NOT_LOADED check before building and submitting the
request (the adapter handle does not influence the control flow here, the
ioctl outcome is the oracle). -/
def eckeygen_hw (cfg : EccConfig) (env : KeygenEnv)
    (key : ICA_EC_KEY) : KeygenOut :=
  if cfg.msa9_switch then
    let r := eckeygen_cpacf env.cpacf key.nid
    if r.rc ≠ EINVAL then
      { rc := r.rc, cpacf_invoked := true, submitted := false,
        D_written := r.D, X_written := r.X, Y_written := r.Y,
        leaked := false }
    else eckeygen_hw_card cfg env key true
  else eckeygen_hw_card cfg env key false

/-! ## Claim C1 -/

theorem ecdh_hw_card_cpacf_invoked (cfg : EccConfig) (env : EcdhEnv)
    (adapter : Int) (privA pubB : ICA_EC_KEY) (cp : Bool) :
    (ecdh_hw_card cfg env adapter privA pubB cp).cpacf_invoked = cp := by
  unfold ecdh_hw_card
  dsimp only
  split_ifs <;> rfl

theorem ecdsa_sign_hw_card_cpacf_invoked (cfg : EccConfig) (env : SignHwEnv)
    (adapter : Int) (privkey : ICA_EC_KEY) (cp : Bool) :
    (ecdsa_sign_hw_card cfg env adapter privkey cp).cpacf_invoked = cp := by
  unfold ecdsa_sign_hw_card
  dsimp only
  cases provide_pubkey env.derive privkey with
  | error e =>
    dsimp only
    split_ifs <;> rfl
  | ok v =>
    obtain ⟨xy, derived⟩ := v
    dsimp only
    split_ifs <;> rfl

theorem ecdsa_verify_hw_card_cpacf_invoked (cfg : EccConfig)
    (env : VerifyHwEnv) (adapter : Int) (pub : ICA_EC_KEY) (cp : Bool) :
    (ecdsa_verify_hw_card cfg env adapter pub cp).cpacf_invoked = cp := by
  unfold ecdsa_verify_hw_card
  split_ifs <;> rfl

theorem eckeygen_hw_card_cpacf_invoked (cfg : EccConfig) (env : KeygenEnv)
    (key : ICA_EC_KEY) (cp : Bool) :
    (eckeygen_hw_card cfg env key cp).cpacf_invoked = cp := by
  unfold eckeygen_hw_card
  dsimp only
  split_ifs <;> rfl

/-- C1 (amended): ecdh_hw, ecdsa_sign_hw and ecdsa_verify_hw follow the
dispatch state machine as claimed — the instruction tier is entered exactly
when msa9_switch is set and offload is not forced; a non-EINVAL instruction
result is returned at once without touching the coprocessor; on fallthrough
the coprocessor tier is gated first on ecc_via_online_card (else ENODEV)
and then on the DRIVER_NOT_LOADED sentinel (else EIO), in both cases
without submitting a request.  eckeygen_hw deviates: its instruction tier
is gated on msa9_switch alone (offload is ignored) and it performs no
DRIVER_NOT_LOADED check — once the card gate and construction succeed it
submits regardless of the adapter handle. -/
theorem hw_dispatch_state_machine (cfg : EccConfig)
    (envE : EcdhEnv) (envS : SignHwEnv) (envV : VerifyHwEnv)
    (envK : KeygenEnv) (adapter : Int)
    (privA pubB privS pubV keyG : ICA_EC_KEY) (hash sig : List Nat) :
    ((ecdh_hw cfg envE adapter privA pubB).cpacf_invoked
        = (cfg.msa9_switch && !cfg.ica_offload_enabled)) ∧
    ((cfg.msa9_switch && !cfg.ica_offload_enabled) = true →
      (scalar_mul_cpacf envE.pcc privA.nid).rc ≠ EINVAL →
      (ecdh_hw cfg envE adapter privA pubB).rc
          = (scalar_mul_cpacf envE.pcc privA.nid).rc ∧
      (ecdh_hw cfg envE adapter privA pubB).submitted = false) ∧
    (((cfg.msa9_switch && !cfg.ica_offload_enabled) = false ∨
        (scalar_mul_cpacf envE.pcc privA.nid).rc = EINVAL) →
      (cfg.ecc_via_online_card = false →
        (ecdh_hw cfg envE adapter privA pubB).rc = ENODEV ∧
        (ecdh_hw cfg envE adapter privA pubB).submitted = false) ∧
      (cfg.ecc_via_online_card = true → adapter = DRIVER_NOT_LOADED →
        (ecdh_hw cfg envE adapter privA pubB).rc = EIO ∧
        (ecdh_hw cfg envE adapter privA pubB).submitted = false)) ∧
    ((ecdsa_sign_hw cfg envS adapter privS hash).cpacf_invoked
        = (cfg.msa9_switch && !cfg.ica_offload_enabled)) ∧
    ((cfg.msa9_switch && !cfg.ica_offload_enabled) = true →
      (ecdsa_sign_cpacf_hwrand envS.kdsa privS hash).rc ≠ EINVAL →
      (ecdsa_sign_hw cfg envS adapter privS hash).rc
          = (ecdsa_sign_cpacf_hwrand envS.kdsa privS hash).rc ∧
      (ecdsa_sign_hw cfg envS adapter privS hash).submitted = false) ∧
    (((cfg.msa9_switch && !cfg.ica_offload_enabled) = false ∨
        (ecdsa_sign_cpacf_hwrand envS.kdsa privS hash).rc = EINVAL) →
      (cfg.ecc_via_online_card = false →
        (ecdsa_sign_hw cfg envS adapter privS hash).rc = ENODEV ∧
        (ecdsa_sign_hw cfg envS adapter privS hash).submitted = false) ∧
      (cfg.ecc_via_online_card = true → adapter = DRIVER_NOT_LOADED →
        (ecdsa_sign_hw cfg envS adapter privS hash).rc = EIO ∧
        (ecdsa_sign_hw cfg envS adapter privS hash).submitted = false)) ∧
    ((ecdsa_verify_hw cfg envV adapter pubV hash sig).cpacf_invoked
        = (cfg.msa9_switch && !cfg.ica_offload_enabled)) ∧
    ((cfg.msa9_switch && !cfg.ica_offload_enabled) = true →
      (ecdsa_verify_cpacf envV.kdsa pubV hash sig).rc ≠ EINVAL →
      (ecdsa_verify_hw cfg envV adapter pubV hash sig).rc
          = (ecdsa_verify_cpacf envV.kdsa pubV hash sig).rc ∧
      (ecdsa_verify_hw cfg envV adapter pubV hash sig).submitted = false) ∧
    (((cfg.msa9_switch && !cfg.ica_offload_enabled) = false ∨
        (ecdsa_verify_cpacf envV.kdsa pubV hash sig).rc = EINVAL) →
      (cfg.ecc_via_online_card = false →
        (ecdsa_verify_hw cfg envV adapter pubV hash sig).rc = ENODEV ∧
        (ecdsa_verify_hw cfg envV adapter pubV hash sig).submitted = false) ∧
      (cfg.ecc_via_online_card = true → adapter = DRIVER_NOT_LOADED →
        (ecdsa_verify_hw cfg envV adapter pubV hash sig).rc = EIO ∧
        (ecdsa_verify_hw cfg envV adapter pubV hash sig).submitted = false)) ∧
    ((eckeygen_hw cfg envK keyG).cpacf_invoked = cfg.msa9_switch) ∧
    (cfg.msa9_switch = true →
      (eckeygen_cpacf envK.cpacf keyG.nid).rc ≠ EINVAL →
      (eckeygen_hw cfg envK keyG).rc
          = (eckeygen_cpacf envK.cpacf keyG.nid).rc ∧
      (eckeygen_hw cfg envK keyG).submitted = false) ∧
    ((cfg.msa9_switch = false ∨
        (eckeygen_cpacf envK.cpacf keyG.nid).rc = EINVAL) →
      (cfg.ecc_via_online_card = false →
        (eckeygen_hw cfg envK keyG).rc = ENODEV ∧
        (eckeygen_hw cfg envK keyG).submitted = false) ∧
      (cfg.ecc_via_online_card = true →
        ¬ curve_type_from_nid keyG.nid < 0 →
        envK.card.malloc_ok = true →
        (eckeygen_hw cfg envK keyG).submitted = true)) := by
  have hE : ∀ cp, (ecdh_hw_card cfg envE adapter privA pubB cp).cpacf_invoked
      = cp := fun cp => ecdh_hw_card_cpacf_invoked cfg envE adapter privA pubB cp
  have hS : ∀ cp,
      (ecdsa_sign_hw_card cfg envS adapter privS cp).cpacf_invoked = cp :=
    fun cp => ecdsa_sign_hw_card_cpacf_invoked cfg envS adapter privS cp
  have hV : ∀ cp,
      (ecdsa_verify_hw_card cfg envV adapter pubV cp).cpacf_invoked = cp :=
    fun cp => ecdsa_verify_hw_card_cpacf_invoked cfg envV adapter pubV cp
  have hK : ∀ cp, (eckeygen_hw_card cfg envK keyG cp).cpacf_invoked = cp :=
    fun cp => eckeygen_hw_card_cpacf_invoked cfg envK keyG cp
  refine ⟨?_, ?_, ?_, ?_, ?_, ?_, ?_, ?_, ?_, ?_, ?_, ?_⟩
  · by_cases hi : (cfg.msa9_switch && !cfg.ica_offload_enabled) = true
    · by_cases hrc : (scalar_mul_cpacf envE.pcc privA.nid).rc = EINVAL
      · simp [ecdh_hw, hi, hrc, hE]
      · simp [ecdh_hw, hi, hrc]
    · simp only [Bool.not_eq_true] at hi
      simp [ecdh_hw, hi, hE]
  · intro hi hrc
    simp [ecdh_hw, hi, hrc]
  · intro hfall
    constructor
    · intro hcard
      rcases hfall with hi | hrc
      · simp [ecdh_hw, hi, ecdh_hw_card, hcard]
      · by_cases hi : (cfg.msa9_switch && !cfg.ica_offload_enabled) = true
        · simp [ecdh_hw, hi, hrc, ecdh_hw_card, hcard]
        · simp only [Bool.not_eq_true] at hi
          simp [ecdh_hw, hi, ecdh_hw_card, hcard]
    · intro hcard hadp
      rcases hfall with hi | hrc
      · simp [ecdh_hw, hi, ecdh_hw_card, hcard, hadp]
      · by_cases hi : (cfg.msa9_switch && !cfg.ica_offload_enabled) = true
        · simp [ecdh_hw, hi, hrc, ecdh_hw_card, hcard, hadp]
        · simp only [Bool.not_eq_true] at hi
          simp [ecdh_hw, hi, ecdh_hw_card, hcard, hadp]
  · by_cases hi : (cfg.msa9_switch && !cfg.ica_offload_enabled) = true
    · by_cases hrc : (ecdsa_sign_cpacf_hwrand envS.kdsa privS hash).rc = EINVAL
      · simp [ecdsa_sign_hw, hi, hrc, hS]
      · simp [ecdsa_sign_hw, hi, hrc]
    · simp only [Bool.not_eq_true] at hi
      simp [ecdsa_sign_hw, hi, hS]
  · intro hi hrc
    simp [ecdsa_sign_hw, hi, hrc]
  · intro hfall
    have hno : ∀ cp, cfg.ecc_via_online_card = false →
        ecdsa_sign_hw_card cfg envS adapter privS cp =
          { rc := ENODEV, cpacf_invoked := cp, derive_invoked := false,
            request_XY := none, submitted := false, sig_written := none,
            leaked := false } := by
      intro cp hcard
      simp [ecdsa_sign_hw_card, hcard]
    have hdn : ∀ cp, cfg.ecc_via_online_card = true →
        adapter = DRIVER_NOT_LOADED →
        ecdsa_sign_hw_card cfg envS adapter privS cp =
          { rc := EIO, cpacf_invoked := cp, derive_invoked := false,
            request_XY := none, submitted := false, sig_written := none,
            leaked := false } := by
      intro cp hcard hadp
      simp [ecdsa_sign_hw_card, hcard, hadp]
    constructor
    · intro hcard
      rcases hfall with hi | hrc
      · simp [ecdsa_sign_hw, hi, hno _ hcard]
      · by_cases hi : (cfg.msa9_switch && !cfg.ica_offload_enabled) = true
        · simp [ecdsa_sign_hw, hi, hrc, hno _ hcard]
        · simp only [Bool.not_eq_true] at hi
          simp [ecdsa_sign_hw, hi, hno _ hcard]
    · intro hcard hadp
      rcases hfall with hi | hrc
      · simp [ecdsa_sign_hw, hi, hdn _ hcard hadp]
      · by_cases hi : (cfg.msa9_switch && !cfg.ica_offload_enabled) = true
        · simp [ecdsa_sign_hw, hi, hrc, hdn _ hcard hadp]
        · simp only [Bool.not_eq_true] at hi
          simp [ecdsa_sign_hw, hi, hdn _ hcard hadp]
  · by_cases hi : (cfg.msa9_switch && !cfg.ica_offload_enabled) = true
    · by_cases hrc : (ecdsa_verify_cpacf envV.kdsa pubV hash sig).rc = EINVAL
      · simp [ecdsa_verify_hw, hi, hrc, hV]
      · simp [ecdsa_verify_hw, hi, hrc]
    · simp only [Bool.not_eq_true] at hi
      simp [ecdsa_verify_hw, hi, hV]
  · intro hi hrc
    simp [ecdsa_verify_hw, hi, hrc]
  · intro hfall
    constructor
    · intro hcard
      rcases hfall with hi | hrc
      · simp [ecdsa_verify_hw, hi, ecdsa_verify_hw_card, hcard]
      · by_cases hi : (cfg.msa9_switch && !cfg.ica_offload_enabled) = true
        · simp [ecdsa_verify_hw, hi, hrc, ecdsa_verify_hw_card, hcard]
        · simp only [Bool.not_eq_true] at hi
          simp [ecdsa_verify_hw, hi, ecdsa_verify_hw_card, hcard]
    · intro hcard hadp
      rcases hfall with hi | hrc
      · simp [ecdsa_verify_hw, hi, ecdsa_verify_hw_card, hcard, hadp]
      · by_cases hi : (cfg.msa9_switch && !cfg.ica_offload_enabled) = true
        · simp [ecdsa_verify_hw, hi, hrc, ecdsa_verify_hw_card, hcard, hadp]
        · simp only [Bool.not_eq_true] at hi
          simp [ecdsa_verify_hw, hi, ecdsa_verify_hw_card, hcard, hadp]
  · by_cases hi : cfg.msa9_switch = true
    · by_cases hrc : (eckeygen_cpacf envK.cpacf keyG.nid).rc = EINVAL
      · simp [eckeygen_hw, hi, hrc, hK]
      · simp [eckeygen_hw, hi, hrc]
    · simp only [Bool.not_eq_true] at hi
      simp [eckeygen_hw, hi, hK]
  · intro hi hrc
    simp [eckeygen_hw, hi, hrc]
  · intro hfall
    constructor
    · intro hcard
      rcases hfall with hi | hrc
      · simp [eckeygen_hw, hi, eckeygen_hw_card, hcard]
      · by_cases hi : cfg.msa9_switch = true
        · simp [eckeygen_hw, hi, hrc, eckeygen_hw_card, hcard]
        · simp only [Bool.not_eq_true] at hi
          simp [eckeygen_hw, hi, eckeygen_hw_card, hcard]
    · intro hcard hct hmal
      rcases hfall with hi | hrc
      · simp [eckeygen_hw, hi, eckeygen_hw_card, hcard, hct, hmal]
        split_ifs <;> rfl
      · by_cases hi : cfg.msa9_switch = true
        · simp [eckeygen_hw, hi, hrc, eckeygen_hw_card, hcard, hct, hmal]
          split_ifs <;> rfl
        · simp only [Bool.not_eq_true] at hi
          simp [eckeygen_hw, hi, eckeygen_hw_card, hcard, hct, hmal]
          split_ifs <;> rfl

/-- Concrete environments for the C1 witness. -/
def c1_envE : EcdhEnv := ⟨⟨false, [], []⟩, ⟨true, 0⟩, ⟨36, []⟩⟩

/-- Concrete sign environment for the C1 witness. -/
def c1_envS : SignHwEnv :=
  ⟨⟨fun _ => (0, [], []), fun _ => (0, [], [])⟩, none, ⟨true, 0⟩, ⟨72, []⟩⟩

/-- Concrete verify environment for the C1 witness. -/
def c1_envV : VerifyHwEnv := ⟨⟨false⟩, ⟨true, 0⟩, ⟨0, 0⟩⟩

/-- Concrete key-generation environment for the C1 witness. -/
def c1_envK : KeygenEnv :=
  ⟨⟨false, false, [1], ⟨false, [], []⟩⟩, ⟨true, 0⟩, ⟨32, [], 4, []⟩⟩

/-- Concrete key for the C1 witness. -/
def c1_key : ICA_EC_KEY := ⟨NID_X9_62_prime256v1, [], none, none⟩

/-- Witness for C1: with the instruction path disabled and no coprocessor
permitted, ecdh_hw terminates with ENODEV without submitting. -/
theorem hw_dispatch_state_machine_witness :
    (ecdh_hw ⟨false, false, false⟩ c1_envE 7 c1_key c1_key).rc = ENODEV := by
  have h := ((hw_dispatch_state_machine ⟨false, false, false⟩ c1_envE c1_envS
    c1_envV c1_envK 7 c1_key c1_key c1_key c1_key c1_key [] []).2.2.1
    (Or.inl (by decide))).1 rfl
  exact h.1

/-- Concrete environment for the C1 counterexample. -/
def c1_cex_env : KeygenEnv :=
  ⟨⟨false, false, [1], ⟨false, List.replicate 80 2, List.replicate 80 3⟩⟩,
    ⟨true, 0⟩, ⟨32, [], 4, []⟩⟩

/-- C1 counterexample: with msa9_switch set, offload forced and no
coprocessor permitted, the claimed state machine must skip the instruction
tier (instruction-path-disabled: offload forced) and terminate with
ENODEV — but eckeygen_hw enters the instruction tier anyway and returns
its result. -/
theorem eckeygen_hw_ignores_offload_counterexample :
    (eckeygen_hw ⟨true, true, false⟩ c1_cex_env c1_key).cpacf_invoked = true ∧
    ((true : Bool) && !(true : Bool)) = false ∧
    (eckeygen_hw ⟨true, true, false⟩ c1_cex_env c1_key).rc = 0 ∧
    (eckeygen_hw ⟨true, true, false⟩ c1_cex_env c1_key).rc ≠ ENODEV := by
  refine ⟨?_, by decide, ?_, ?_⟩ <;> decide

/-! ## Claim C2 -/

/-- C2 (amended): on the coprocessor path, ECDSA-sign requires the public
coordinates even when the caller supplied only the private scalar —
provide_pubkey copies (X, Y) unchanged when both are present (no
derivation), derives them via the EC library's point multiplication
(left-zero-padded to the curve width) when either is absent, fails with
EFAULT when the library does, and runs before the request is built: the
request carries exactly its coordinates and ecdsa_sign_hw returns EIO
without submitting when it fails.  ECDH, by contrast, performs no
derivation: its key token embeds the caller's private scalar D and the
peer key pubkey_B's coordinates directly, and the whole ecdh_hw flow is
insensitive to privkey_A's own X/Y fields. -/
theorem coproc_pubkey_provisioning (cfg : EccConfig) (envS : SignHwEnv)
    (envE : EcdhEnv) (adapter : Int) (privkey privA pubB : ICA_EC_KEY)
    (hash : List Nat) (x y bnx bny : List Nat)
    (xy : List Nat × List Nat) (derived : Bool) (e : Nat) :
    (privkey.X = some x → privkey.Y = some y →
      provide_pubkey envS.derive privkey =
        .ok ((x.take (privlen_from_nid privkey.nid),
              y.take (privlen_from_nid privkey.nid)), false)) ∧
    (privkey.X = none →
      envS.derive = some (bnx, bny) →
      provide_pubkey envS.derive privkey =
        .ok ((List.replicate (privlen_from_nid privkey.nid - bnx.length) 0
                ++ bnx,
              List.replicate (privlen_from_nid privkey.nid - bny.length) 0
                ++ bny), true)) ∧
    (privkey.X = none → envS.derive = none →
      provide_pubkey envS.derive privkey = .error EFAULT) ∧
    (cfg.msa9_switch = false → cfg.ecc_via_online_card = true →
      adapter ≠ DRIVER_NOT_LOADED →
      provide_pubkey envS.derive privkey = .ok (xy, derived) →
      ¬ curve_type_from_nid privkey.nid < 0 →
      envS.card.malloc_ok = true →
      (ecdsa_sign_hw cfg envS adapter privkey hash).request_XY = some xy ∧
      (ecdsa_sign_hw cfg envS adapter privkey hash).derive_invoked
        = derived) ∧
    (cfg.msa9_switch = false → cfg.ecc_via_online_card = true →
      adapter ≠ DRIVER_NOT_LOADED →
      provide_pubkey envS.derive privkey = .error e →
      (ecdsa_sign_hw cfg envS adapter privkey hash).rc = EIO ∧
      (ecdsa_sign_hw cfg envS adapter privkey hash).submitted = false) ∧
    (∀ ct, (make_ecdh_key_token privA pubB ct).1.privkey
        = privA.D.take (privlen_from_nid privA.nid) ∧
      (make_ecdh_key_token privA pubB ct).1.pubkey
        = (pubB.X.getD []).take (privlen_from_nid privA.nid)
          ++ (pubB.Y.getD []).take (privlen_from_nid privA.nid)) ∧
    (∀ X1 Y1 X2 Y2 : Option (List Nat),
      ecdh_hw cfg envE adapter ⟨privA.nid, privA.D, X1, Y1⟩ pubB
        = ecdh_hw cfg envE adapter ⟨privA.nid, privA.D, X2, Y2⟩ pubB) := by
  refine ⟨?_, ?_, ?_, ?_, ?_, ?_, ?_⟩
  · intro hx hy
    simp [provide_pubkey, hx, hy]
  · intro hx hd
    simp [provide_pubkey, hx, hd]
  · intro hx hd
    simp [provide_pubkey, hx, hd]
  · intro hm hc hadp hpk hct hmal
    simp [ecdsa_sign_hw, hm, ecdsa_sign_hw_card, hc, hadp, hpk, hct, hmal]
    constructor <;> split_ifs <;> rfl
  · intro hm hc hadp hpk
    simp [ecdsa_sign_hw, hm, ecdsa_sign_hw_card, hc, hadp, hpk]
  · intro ct
    exact ⟨rfl, rfl⟩
  · intro X1 Y1 X2 Y2
    rfl

/-- Concrete keys and environment for the C2 witness and counterexample. -/
def c2_privA : ICA_EC_KEY :=
  ⟨NID_X9_62_prime256v1, List.replicate 32 1,
    some (List.replicate 32 2), some (List.replicate 32 3)⟩

/-- Concrete peer public key (C2). -/
def c2_pubB : ICA_EC_KEY :=
  ⟨NID_X9_62_prime256v1, [], some (List.replicate 32 8),
    some (List.replicate 32 9)⟩

/-- Concrete ECDH environment (C2): all oracles succeed, reply length
matches P-256 (32 + 4). -/
def c2_envE : EcdhEnv := ⟨⟨false, [], []⟩, ⟨true, 0⟩, ⟨36, List.replicate 32 7⟩⟩

/-- Concrete sign environment (C2): no public key supplied, derivation
oracle yields short coordinates to exercise the padding. -/
def c2_envS : SignHwEnv :=
  ⟨⟨fun _ => (0, [], []), fun _ => (0, [], [])⟩, some ([4, 5], [6]),
    ⟨true, 0⟩, ⟨72, []⟩⟩

/-- Private-only key for the C2 witness. -/
def c2_privOnly : ICA_EC_KEY :=
  ⟨NID_X9_62_prime256v1, List.replicate 32 1, none, none⟩

/-- Witness for C2: a private-only P-256 key gets its public coordinates
derived (left-zero-padded) and embedded in the sign request. -/
theorem coproc_pubkey_provisioning_witness :
    (ecdsa_sign_hw ⟨false, false, true⟩ c2_envS 7 c2_privOnly []).request_XY
      = some (List.replicate 30 0 ++ [4, 5], List.replicate 31 0 ++ [6]) ∧
    (ecdsa_sign_hw ⟨false, false, true⟩ c2_envS 7 c2_privOnly []).derive_invoked
      = true := by
  have h := (coproc_pubkey_provisioning ⟨false, false, true⟩ c2_envS c2_envE 7
    c2_privOnly c2_privA c2_pubB [] [] [] [4, 5] [6]
    (List.replicate 30 0 ++ [4, 5], List.replicate 31 0 ++ [6]) true
    0).2.2.2.1 rfl rfl (by decide) rfl (by decide) rfl
  exact h

/-- C2 counterexample: the claim says the key's own (X, Y), when present,
are copied unchanged into the ECDH request — but the request token embeds
pubkey_B's coordinates, not privkey_A's, even though privkey_A supplied
both. -/
theorem ecdh_hw_ignores_caller_pubkey_counterexample :
    (ecdh_hw ⟨false, false, true⟩ c2_envE 7 c2_privA c2_pubB).rc = 0 ∧
    ((ecdh_hw ⟨false, false, true⟩ c2_envE 7 c2_privA c2_pubB).request_token).map
        ECC_KEY_TOKEN.pubkey
      = some (List.replicate 32 8 ++ List.replicate 32 9) ∧
    ¬ ((ecdh_hw ⟨false, false, true⟩ c2_envE 7 c2_privA c2_pubB).request_token).map
        ECC_KEY_TOKEN.pubkey
      = some (List.replicate 32 2 ++ List.replicate 32 3) := by
  refine ⟨?_, ?_, ?_⟩ <;> decide

/-! ## Claim C3 -/

/-- C3 (amended): with the coprocessor gates passed and the transport
successful, each decoder validates the reply's reported length against the
curve descriptor before copying: ecdh_hw copies the shared secret only if
key_len - 4 equals privlen, ecdsa_sign_hw copies the signature only if
vud_len - 8 equals 2 * privlen; on mismatch both return EIO with the output
buffer untouched.  eckeygen_hw checks the formatted-data length before
copying D — but it copies D BEFORE checking the public token's compression
marker, so on a marker mismatch it returns EIO with the private key already
written (only the public-coordinate output is withheld). -/
theorem coproc_reply_validation (cfg : EccConfig) (envE : EcdhEnv)
    (envS : SignHwEnv) (envK : KeygenEnv) (adapter : Int)
    (privA pubB privS keyG : ICA_EC_KEY) (hash : List Nat) (x y : List Nat)
    (hm : cfg.msa9_switch = false) (hc : cfg.ecc_via_online_card = true)
    (hadp : adapter ≠ DRIVER_NOT_LOADED)
    (hctE : ¬ curve_type_from_nid privA.nid < 0)
    (hctS : ¬ curve_type_from_nid privS.nid < 0)
    (hctK : ¬ curve_type_from_nid keyG.nid < 0)
    (hmalE : envE.card.malloc_ok = true) (hmalS : envS.card.malloc_ok = true)
    (hmalK : envK.card.malloc_ok = true)
    (hioE : envE.card.ioctl_rc = 0) (hioS : envS.card.ioctl_rc = 0)
    (hioK : envK.card.ioctl_rc = 0)
    (hx : privS.X = some x) (hy : privS.Y = some y) :
    (envE.reply.key_len - 4 = (privlen_from_nid privA.nid : Int) →
      (ecdh_hw cfg envE adapter privA pubB).rc = 0 ∧
      (ecdh_hw cfg envE adapter privA pubB).z_written
        = some (envE.reply.raw_z.take (privlen_from_nid privA.nid))) ∧
    (envE.reply.key_len - 4 ≠ (privlen_from_nid privA.nid : Int) →
      (ecdh_hw cfg envE adapter privA pubB).rc = EIO ∧
      (ecdh_hw cfg envE adapter privA pubB).z_written = none) ∧
    (envS.reply.vud_len - 8 = (2 * privlen_from_nid privS.nid : Int) →
      (ecdsa_sign_hw cfg envS adapter privS hash).rc = 0 ∧
      (ecdsa_sign_hw cfg envS adapter privS hash).sig_written
        = some (envS.reply.signature.take
            ((envS.reply.vud_len - 8).toNat))) ∧
    (envS.reply.vud_len - 8 ≠ (2 * privlen_from_nid privS.nid : Int) →
      (ecdsa_sign_hw cfg envS adapter privS hash).rc = EIO ∧
      (ecdsa_sign_hw cfg envS adapter privS hash).sig_written = none) ∧
    (envK.reply.formatted_data_len ≠ privlen_from_nid keyG.nid →
      (eckeygen_hw cfg envK keyG).rc = EIO ∧
      (eckeygen_hw cfg envK keyG).D_written = none ∧
      (eckeygen_hw cfg envK keyG).X_written = none) ∧
    (envK.reply.formatted_data_len = privlen_from_nid keyG.nid →
      envK.reply.compress_flag ≠ 0x04 →
      (eckeygen_hw cfg envK keyG).rc = EIO ∧
      (eckeygen_hw cfg envK keyG).X_written = none ∧
      (eckeygen_hw cfg envK keyG).D_written
        = some (envK.reply.privkey.take (privlen_from_nid keyG.nid))) ∧
    (envK.reply.formatted_data_len = privlen_from_nid keyG.nid →
      envK.reply.compress_flag = 0x04 →
      (eckeygen_hw cfg envK keyG).rc = 0 ∧
      (eckeygen_hw cfg envK keyG).D_written
        = some (envK.reply.privkey.take (privlen_from_nid keyG.nid)) ∧
      (eckeygen_hw cfg envK keyG).X_written
        = some (envK.reply.pubkey.take
            (2 * privlen_from_nid keyG.nid))) := by
  refine ⟨?_, ?_, ?_, ?_, ?_, ?_, ?_⟩
  · intro hlen
    simp [ecdh_hw, hm, ecdh_hw_card, hc, hadp, hctE, hmalE, hioE, hlen]
  · intro hlen
    simp [ecdh_hw, hm, ecdh_hw_card, hc, hadp, hctE, hmalE, hioE, hlen]
  · intro hlen
    simp [ecdsa_sign_hw, hm, ecdsa_sign_hw_card, hc, hadp, hctS, hmalS,
      hioS, hlen, provide_pubkey, hx, hy]
  · intro hlen
    simp [ecdsa_sign_hw, hm, ecdsa_sign_hw_card, hc, hadp, hctS, hmalS,
      hioS, hlen, provide_pubkey, hx, hy]
  · intro hlen
    simp [eckeygen_hw, hm, eckeygen_hw_card, hc, hctK, hmalK, hioK, hlen]
  · intro hlen hcf
    simp [eckeygen_hw, hm, eckeygen_hw_card, hc, hctK, hmalK, hioK, hlen, hcf]
  · intro hlen hcf
    simp [eckeygen_hw, hm, eckeygen_hw_card, hc, hctK, hmalK, hioK, hlen, hcf]

/-- Concrete keys and environments for the C3 witness. -/
def c3_key : ICA_EC_KEY :=
  ⟨NID_X9_62_prime256v1, List.replicate 32 1,
    some (List.replicate 32 2), some (List.replicate 32 3)⟩

/-- Concrete ECDH environment (C3): reply length mismatched. -/
def c3_envE : EcdhEnv :=
  ⟨⟨false, [], []⟩, ⟨true, 0⟩, ⟨35, List.replicate 32 7⟩⟩

/-- Concrete sign environment (C3): reply length matches (2*32 + 8). -/
def c3_envS : SignHwEnv :=
  ⟨⟨fun _ => (0, [], []), fun _ => (0, [], [])⟩, none, ⟨true, 0⟩,
    ⟨72, List.replicate 64 6⟩⟩

/-- Concrete key-generation environment (C3): well-formed reply. -/
def c3_envK : KeygenEnv :=
  ⟨⟨false, false, [1], ⟨false, [], []⟩⟩, ⟨true, 0⟩,
    ⟨32, List.replicate 32 9, 4, List.replicate 64 8⟩⟩

/-- Witness for C3: mismatched ECDH reply is rejected with EIO and no
output write; a matching sign reply is copied. -/
theorem coproc_reply_validation_witness :
    ((ecdh_hw ⟨false, false, true⟩ c3_envE 7 c3_key c3_key).rc = EIO ∧
      (ecdh_hw ⟨false, false, true⟩ c3_envE 7 c3_key c3_key).z_written
        = none) ∧
    (ecdsa_sign_hw ⟨false, false, true⟩ c3_envS 7 c3_key []).sig_written
      = some (List.replicate 64 6) := by
  have h := coproc_reply_validation ⟨false, false, true⟩ c3_envE c3_envS
    c3_envK 7 c3_key c3_key c3_key c3_key [] (List.replicate 32 2)
    (List.replicate 32 3) rfl rfl (by decide) (by decide) (by decide)
    (by decide) rfl rfl rfl rfl rfl rfl rfl rfl
  refine ⟨h.2.1 (by decide), ?_⟩
  have h2 := (h.2.2.1 (by decide)).2
  rw [h2]
  decide

/-- C3 counterexample: on a compression-marker mismatch eckeygen_hw
returns EIO but has already written the caller's private-key output
buffer, contradicting the claim that no output is written on any
mismatch. -/
theorem eckeygen_writes_output_on_mismatch_counterexample :
    (eckeygen_hw ⟨false, false, true⟩
      ⟨⟨false, false, [1], ⟨false, [], []⟩⟩, ⟨true, 0⟩,
        ⟨32, List.replicate 32 9, 5, []⟩⟩
      ⟨NID_X9_62_prime256v1, [], none, none⟩).rc = EIO ∧
    (eckeygen_hw ⟨false, false, true⟩
      ⟨⟨false, false, [1], ⟨false, [], []⟩⟩, ⟨true, 0⟩,
        ⟨32, List.replicate 32 9, 5, []⟩⟩
      ⟨NID_X9_62_prime256v1, [], none, none⟩).D_written
      = some (List.replicate 32 9) := by
  refine ⟨?_, ?_⟩ <;> decide

/-! ## Claim C4 -/

/-- C4: with the coprocessor gates passed and the ioctl successful,
ecdsa_verify_hw maps the status pair (4, RS_SIGNATURE_INVALID) to EFAULT
and every other nonzero status pair to EIO, with (0, 0) yielding success;
and ecdsa_verify_sw maps the library's verdict 0 (invalid) to EFAULT,
1 (valid) to 0, and any other (internal error) to EIO, with a failed key
construction also yielding EIO. -/
theorem verify_status_mapping (cfg : EccConfig) (envV : VerifyHwEnv)
    (adapter : Int) (pub : ICA_EC_KEY) (hash sig : List Nat)
    (hm : cfg.msa9_switch = false) (hc : cfg.ecc_via_online_card = true)
    (hadp : adapter ≠ DRIVER_NOT_LOADED)
    (hmal : envV.card.malloc_ok = true)
    (hct : ¬ curve_type_from_nid pub.nid < 0)
    (hio : envV.card.ioctl_rc = 0) :
    (envV.reply.rtcode = 4 → envV.reply.rscode = RS_SIGNATURE_INVALID →
      (ecdsa_verify_hw cfg envV adapter pub hash sig).rc = EFAULT) ∧
    (¬ (envV.reply.rtcode = 4 ∧ envV.reply.rscode = RS_SIGNATURE_INVALID) →
      (envV.reply.rtcode ≠ 0 ∨ envV.reply.rscode ≠ 0) →
      (ecdsa_verify_hw cfg envV adapter pub hash sig).rc = EIO) ∧
    (envV.reply.rtcode = 0 → envV.reply.rscode = 0 →
      (ecdsa_verify_hw cfg envV adapter pub hash sig).rc = 0) ∧
    (∀ vr : Int,
      ecdsa_verify_sw false true true vr
        = (if vr = 0 then EFAULT else if vr = 1 then 0 else EIO) ∧
      ecdsa_verify_sw false true false vr = EIO) := by
  refine ⟨?_, ?_, ?_, ?_⟩
  · intro hrt hrs
    simp [ecdsa_verify_hw, hm, ecdsa_verify_hw_card, hc, hadp, hmal, hct,
      hio, hrt, hrs]
  · intro hpair hnz
    rcases hnz with h | h
    · simp [ecdsa_verify_hw, hm, ecdsa_verify_hw_card, hc, hadp, hmal, hct,
        hio, hpair, h]
    · simp [ecdsa_verify_hw, hm, ecdsa_verify_hw_card, hc, hadp, hmal, hct,
        hio, hpair, h]
  · intro hrt hrs
    have hp : ¬ (envV.reply.rtcode = 4 ∧
        envV.reply.rscode = RS_SIGNATURE_INVALID) := by
      intro h
      rw [hrt] at h
      omega
    simp [ecdsa_verify_hw, hm, ecdsa_verify_hw_card, hc, hadp, hmal, hct,
      hio, hp, hrt, hrs]
  · intro vr
    constructor
    · simp [ecdsa_verify_sw]
    · simp [ecdsa_verify_sw]

/-- Concrete verify environment for the C4 witness: status pair
(4, RS_SIGNATURE_INVALID). -/
def c4_env : VerifyHwEnv := ⟨⟨false⟩, ⟨true, 0⟩, ⟨4, RS_SIGNATURE_INVALID⟩⟩

/-- Concrete public key for the C4 witness. -/
def c4_key : ICA_EC_KEY :=
  ⟨NID_X9_62_prime256v1, [], some (List.replicate 32 2),
    some (List.replicate 32 3)⟩

/-- Witness for C4: the signature-invalid status pair maps to EFAULT and
the software verifier maps verdict 0 to EFAULT. -/
theorem verify_status_mapping_witness :
    (ecdsa_verify_hw ⟨false, false, true⟩ c4_env 7 c4_key [] []).rc
      = EFAULT ∧
    ecdsa_verify_sw false true true 0 = EFAULT := by
  have h := verify_status_mapping ⟨false, false, true⟩ c4_env 7 c4_key [] []
    rfl rfl (by decide) rfl (by decide) rfl
  refine ⟨h.1 rfl rfl, ?_⟩
  have h2 := (h.2.2.2 0).1
  rw [h2]
  rfl

/-! ## Claim C8 -/

/-- Concrete verify environment for the C8 failing input. -/
def c8_env : VerifyHwEnv := ⟨⟨false⟩, ⟨true, 0⟩, ⟨0, 0⟩⟩

/-- An X25519 key: no CCA curve-type code exists for it. -/
def c8_key : ICA_EC_KEY :=
  ⟨NID_X25519, [], some (List.replicate 32 2), some (List.replicate 32 3)⟩

/-- C8 is violated by the code: make_ecdsa_verify_request allocates the
request buffer before its curve-type check, returns NULL on an unknown
curve without freeing it, and ecdsa_verify_hw then returns EIO without
wiping or freeing the buffer — the allocation is leaked un-wiped on that
exit path (every other builder checks the curve before allocating). -/
theorem ecdsa_verify_hw_leaks_on_unknown_curve :
    (ecdsa_verify_hw ⟨false, false, true⟩ c8_env 7 c8_key [] []).rc = EIO ∧
    (ecdsa_verify_hw ⟨false, false, true⟩ c8_env 7 c8_key [] []).leaked
      = true := by
  refine ⟨?_, ?_⟩ <;> decide

end S390Ecc
